import Mathlib

/-!
Shallow embedding of the `superfan-core` Solana programs
(`superfan-presale`, `label-subdao`, `superfan-dao` under
`src/solana-adapter/programs/`).

Machine integers (`u64`, `u128`) are modelled as `Nat` together with the
explicit checked operations the source uses (`checked_add`, `checked_sub`,
`checked_mul`, `checked_div`), which fail at the width limit exactly as the
Rust operations do.  Fallible instruction handlers are functions into
`Except` with the error enums of the source; token-program CPI failures
(insufficient balance, receiver overflow) are modelled by an extra
`SplTokenFailure` constructor, and Anchor account constraints
(`init` on an already existing PDA, missing account) by
`AccountAlreadyInUse` / `AccountNotFound`.  On-chain account state is
explicit record state threaded through each handler; a per-program step
relation over instruction sequences gives the reachable states.

Fields irrelevant to control flow (pubkeys, PDA bumps, timestamps) are
omitted from the record types; every field that any branch of the handlers
reads or writes is kept under its source name.
-/

/-- Exclusive upper bound of the `u64` range. -/
def U64LIM : Nat := 2 ^ 64

/-- Exclusive upper bound of the `u128` range. -/
def U128LIM : Nat := 2 ^ 128

/-- Rust `checked_add` at width limit `lim`. -/
def chk_add (lim a b : Nat) : Option Nat :=
  if a + b < lim then some (a + b) else none

/-- Rust `checked_sub` (underflow yields `none`). -/
def chk_sub (a b : Nat) : Option Nat :=
  if b ≤ a then some (a - b) else none

/-- Rust `checked_mul` at width limit `lim`. -/
def chk_mul (lim a b : Nat) : Option Nat :=
  if a * b < lim then some (a * b) else none

/-- Rust `checked_div` (`none` exactly on division by zero). -/
def chk_div (a b : Nat) : Option Nat :=
  if b = 0 then none else some (a / b)

/-- SPL token `transfer`: needs a sufficient source balance and a
destination balance that stays inside `u64`; returns the two new balances
`(source, destination)`. -/
def spl_transfer (src dst amount : Nat) : Option (Nat × Nat) :=
  if amount ≤ src then
    match chk_add U64LIM dst amount with
    | some dst2 => some (src - amount, dst2)
    | none => none
  else none

/-- SPL token mint state: total supply plus the optional mint authority
(`none` after the authority has been removed). -/
structure SplMint where
  supply : Nat
  mint_authority : Option Unit
  deriving Repr, DecidableEq

/-- SPL token `mint_to`: requires a present mint authority, a supply and a
destination balance that stay inside `u64`; returns the new mint state and
the new destination balance. -/
def spl_mint_to (m : SplMint) (dst amount : Nat) : Option (SplMint × Nat) :=
  match m.mint_authority with
  | none => none
  | some _ =>
    match chk_add U64LIM m.supply amount, chk_add U64LIM dst amount with
    | some s2, some d2 => some ({ m with supply := s2 }, d2)
    | _, _ => none

/-- SPL token `set_authority(MintTokens, None)`: removes the mint
authority permanently. -/
def spl_remove_mint_authority (m : SplMint) : SplMint :=
  { m with mint_authority := none }

/-! ## superfan-presale program -/

/-- Error enum of `superfan-presale` (`PresaleError` in the source), plus
one constructor for propagated SPL-token CPI failures. -/
inductive PresaleError where
  | CampaignIdTooLong
  | InvalidPrice
  | InvalidAmount
  | CampaignInactive
  | SupplyExceeded
  | InsufficientFunds
  | MathOverflow
  | SplTokenFailure
  deriving Repr, DecidableEq

/-- Campaign state account (source struct `Campaign`); pubkeys, bump and
timestamps omitted, `lock_duration` omitted (never read by a handler). -/
structure Campaign where
  campaign_id : String
  price_per_token_usdc : Nat
  total_supply : Option Nat
  tokens_sold : Nat
  usdc_raised : Nat
  is_active : Bool
  deriving Repr, DecidableEq

/-- Handler of the source instruction `initialize_campaign`: validates the
id length and the price and returns the fresh campaign account state. -/
def init_campaign (campaign_id : String) (price_per_token_usdc : Nat)
    (total_supply : Option Nat) : Except PresaleError Campaign :=
  if ¬ campaign_id.length ≤ 50 then .error .CampaignIdTooLong
  else if ¬ price_per_token_usdc > 0 then .error .InvalidPrice
  else .ok
    { campaign_id := campaign_id
      price_per_token_usdc := price_per_token_usdc
      total_supply := total_supply
      tokens_sold := 0
      usdc_raised := 0
      is_active := true }

/-- Handler of `buy_presale`.  Arguments beyond the campaign account: the
treasury balance, the buyer USDC balance, the buyer campaign-token balance,
the campaign token mint, and the `usdc_amount` instruction argument.
Returns the updated `(campaign, treasury, buyer_usdc, buyer_tokens, mint)`.
The computed `refund_amount` is logged but never transferred in the
source, so the buyer is debited exactly `actual_usdc_amount`. -/
def buy_presale (c : Campaign) (treasury buyer_usdc buyer_tokens : Nat)
    (mint : SplMint) (usdc_amount : Nat) :
    Except PresaleError (Campaign × Nat × Nat × Nat × SplMint) :=
  if ¬ c.is_active then .error .CampaignInactive
  else if ¬ usdc_amount > 0 then .error .InvalidAmount
  else
    match chk_div usdc_amount c.price_per_token_usdc with
    | none => .error .MathOverflow
    | some tokens_to_mint =>
      if ¬ tokens_to_mint > 0 then .error .InvalidAmount
      else
        match c.total_supply with
        | some total_supply =>
          match chk_add U64LIM c.tokens_sold tokens_to_mint with
          | none => .error .MathOverflow
          | some new_total =>
            if ¬ new_total ≤ total_supply then .error .SupplyExceeded
            else buyPresaleRest c treasury buyer_usdc buyer_tokens mint
              usdc_amount tokens_to_mint
        | none =>
          buyPresaleRest c treasury buyer_usdc buyer_tokens mint
            usdc_amount tokens_to_mint
where
  /-- Continuation of `buy_presale` after the supply-cap check (shared by
  the capped and uncapped branches of the source `if let`). -/
  buyPresaleRest (c : Campaign) (treasury buyer_usdc buyer_tokens : Nat)
      (mint : SplMint) (usdc_amount tokens_to_mint : Nat) :
      Except PresaleError (Campaign × Nat × Nat × Nat × SplMint) :=
    match chk_mul U64LIM tokens_to_mint c.price_per_token_usdc with
    | none => .error .MathOverflow
    | some actual_usdc_amount =>
      match chk_sub usdc_amount actual_usdc_amount with
      | none => .error .MathOverflow
      | some _refund_amount =>
        match spl_transfer buyer_usdc treasury actual_usdc_amount with
        | none => .error .SplTokenFailure
        | some (buyer_usdc2, treasury2) =>
          match spl_mint_to mint buyer_tokens tokens_to_mint with
          | none => .error .SplTokenFailure
          | some (mint2, buyer_tokens2) =>
            match chk_add U64LIM c.tokens_sold tokens_to_mint with
            | none => .error .MathOverflow
            | some sold2 =>
              match chk_add U64LIM c.usdc_raised actual_usdc_amount with
              | none => .error .MathOverflow
              | some raised2 =>
                .ok ({ c with tokens_sold := sold2, usdc_raised := raised2 },
                  treasury2, buyer_usdc2, buyer_tokens2, mint2)

/-- Handler of `withdraw_funds`: validates the amount against the treasury
balance and transfers to the authority USDC account.  Note the handler
performs no check of `is_active`.  Returns the new
`(treasury, authority_usdc)` balances. -/
def withdraw_funds (_c : Campaign) (treasury authority_usdc amount : Nat) :
    Except PresaleError (Nat × Nat) :=
  if ¬ amount > 0 then .error .InvalidAmount
  else if ¬ amount ≤ treasury then .error .InsufficientFunds
  else
    match spl_transfer treasury authority_usdc amount with
    | none => .error .SplTokenFailure
    | some (treasury2, authority2) => .ok (treasury2, authority2)

/-- Handler of `close_campaign`: unconditionally deactivates the
campaign. -/
def close_campaign (c : Campaign) : Campaign :=
  { c with is_active := false }

/-- Full on-chain state touched by the presale program: the campaign
account, its USDC treasury, one buyer (USDC and campaign-token balances),
the campaign token mint and the authority USDC account. -/
structure PresaleState where
  campaign : Campaign
  treasury : Nat
  buyer_usdc : Nat
  buyer_tokens : Nat
  token_mint : SplMint
  authority_usdc : Nat
  deriving Repr, DecidableEq

/-- Instructions of the presale program after campaign creation. -/
inductive PresaleIx where
  | buyIx (usdc_amount : Nat)
  | withdrawIx (amount : Nat)
  | closeIx
  deriving Repr, DecidableEq

/-- One presale instruction applied to the on-chain state (atomic: an
error leaves the state unchanged, as a failed Solana transaction does). -/
def presaleStep (s : PresaleState) : PresaleIx → Except PresaleError PresaleState
  | .buyIx usdc_amount =>
    match buy_presale s.campaign s.treasury s.buyer_usdc s.buyer_tokens
        s.token_mint usdc_amount with
    | .error e => .error e
    | .ok (c2, t2, bu2, bt2, m2) =>
      .ok { s with campaign := c2, treasury := t2, buyer_usdc := bu2,
                   buyer_tokens := bt2, token_mint := m2 }
  | .withdrawIx amount =>
    match withdraw_funds s.campaign s.treasury s.authority_usdc amount with
    | .error e => .error e
    | .ok (t2, a2) => .ok { s with treasury := t2, authority_usdc := a2 }
  | .closeIx => .ok { s with campaign := close_campaign s.campaign }

/-- Presale states reachable from a freshly initialized campaign: the
campaign account comes from a successful `initialize_campaign`, the
treasury and the campaign token mint are the freshly created (empty)
accounts, and the pre-existing external balances are `u64` values. -/
inductive presaleReachable : PresaleState → Prop
  | init (campaign_id : String) (price : Nat) (cap : Option Nat)
      (c : Campaign) (bu au : Nat)
      (hc : init_campaign campaign_id price cap = .ok c)
      (hbu : bu < U64LIM) (hau : au < U64LIM) :
      presaleReachable
        { campaign := c, treasury := 0, buyer_usdc := bu, buyer_tokens := 0,
          token_mint := { supply := 0, mint_authority := some () },
          authority_usdc := au }
  | step (s : PresaleState) (ix : PresaleIx) (s' : PresaleState)
      (hs : presaleReachable s) (hstep : presaleStep s ix = .ok s') :
      presaleReachable s'

/-! ## label-subdao program -/

/-- Error enum of `label-subdao` (`LabelError` in the source), plus
constructors for propagated SPL-token CPI failures and Anchor account
constraint failures (`init` on an existing PDA, account lookup failure). -/
inductive LabelError where
  | NameTooLong
  | IdTooLong
  | DescriptionTooLong
  | InvalidAmount
  | LabelInactive
  | InsufficientLabelFunds
  | ProposalNotPending
  | ProposalNotPassed
  | CreditLineInactive
  | InsufficientCredit
  | MathOverflow
  | InvalidTokenAccountOwner
  | SplTokenFailure
  | AccountAlreadyInUse
  | AccountNotFound
  deriving Repr, DecidableEq

/-- Source account struct `LabelExternal`; pubkeys, `name` and the PDA
bump are omitted (used only for addressing and signing). -/
structure LabelExternal where
  initial_funding : Nat
  total_deployed : Nat
  total_repaid : Nat
  committed_amount : Nat
  is_active : Bool
  deriving Repr, DecidableEq

/-- Source enum `ArtistProposalStatus`. -/
inductive ArtistProposalStatus where
  | Pending
  | Approved
  | Rejected
  | Active
  | Completed
  deriving Repr, DecidableEq

/-- Source account struct `ArtistProposal`; pubkeys, timestamps and the
PDA bump omitted, the `credit_line` forward reference kept as a flag. -/
structure ArtistProposal where
  artist_name : String
  campaign_id : String
  requested_amount : Nat
  campaign_description : String
  revenue_projection : Nat
  status : ArtistProposalStatus
  credit_line : Option Unit
  deriving Repr, DecidableEq

/-- Source account struct `CreditLine`; pubkeys, timestamp and bump
omitted. -/
structure CreditLine where
  campaign_id : String
  credit_limit : Nat
  credit_used : Nat
  credit_repaid : Nat
  is_active : Bool
  deriving Repr, DecidableEq

/-- Handler of `submit_artist_proposal`: validates string bounds, a
positive amount, an active label, and that the requested amount does not
exceed the available funds `label_treasury − committed_amount`; returns
the fresh proposal account in `Pending`. -/
def submit_artist_proposal (label : LabelExternal) (label_treasury : Nat)
    (artist_name campaign_id : String) (requested_amount : Nat)
    (campaign_description : String) (revenue_projection : Nat) :
    Except LabelError ArtistProposal :=
  if ¬ artist_name.length ≤ 50 then .error .NameTooLong
  else if ¬ campaign_id.length ≤ 50 then .error .IdTooLong
  else if ¬ requested_amount > 0 then .error .InvalidAmount
  else if ¬ campaign_description.length ≤ 500 then .error .DescriptionTooLong
  else if ¬ label.is_active then .error .LabelInactive
  else
    match chk_sub label_treasury label.committed_amount with
    | none => .error .MathOverflow
    | some available_funds =>
      if ¬ available_funds ≥ requested_amount then .error .InsufficientLabelFunds
      else .ok
        { artist_name := artist_name
          campaign_id := campaign_id
          requested_amount := requested_amount
          campaign_description := campaign_description
          revenue_projection := revenue_projection
          status := .Pending
          credit_line := none }

/-- Handler of `execute_artist_funding`: requires the proposal to be
`Pending`, creates the credit line with limit `requested_amount`, marks
the proposal `Approved` (the label-layer status enum has no `Executed`
state) and adds `requested_amount` to `total_deployed` and
`committed_amount`.  No funds are transferred here. -/
def execute_artist_funding (label : LabelExternal) (proposal : ArtistProposal) :
    Except LabelError (LabelExternal × ArtistProposal × CreditLine) :=
  if ¬ proposal.status = .Pending then .error .ProposalNotPending
  else
    let credit_line : CreditLine :=
      { campaign_id := proposal.campaign_id
        credit_limit := proposal.requested_amount
        credit_used := 0
        credit_repaid := 0
        is_active := true }
    let proposal2 := { proposal with status := .Approved, credit_line := some () }
    match chk_add U64LIM label.total_deployed proposal.requested_amount with
    | none => .error .MathOverflow
    | some deployed2 =>
      match chk_add U64LIM label.committed_amount proposal.requested_amount with
      | none => .error .MathOverflow
      | some committed2 =>
        .ok ({ label with total_deployed := deployed2,
                          committed_amount := committed2 },
          proposal2, credit_line)

/-- Handler of `draw_credit`: validates a positive amount, an active
credit line and the available credit `credit_limit − credit_used`,
transfers the amount from the label treasury to the artist account, adds
it to `credit_used` and subtracts it from the label `committed_amount`.
Returns `(label, credit_line, label_treasury, artist_account)`. -/
def draw_credit (label : LabelExternal) (credit_line : CreditLine)
    (label_treasury artist_account amount : Nat) :
    Except LabelError (LabelExternal × CreditLine × Nat × Nat) :=
  if ¬ amount > 0 then .error .InvalidAmount
  else if ¬ credit_line.is_active then .error .CreditLineInactive
  else
    match chk_sub credit_line.credit_limit credit_line.credit_used with
    | none => .error .MathOverflow
    | some available_credit =>
      if ¬ amount ≤ available_credit then .error .InsufficientCredit
      else
        match spl_transfer label_treasury artist_account amount with
        | none => .error .SplTokenFailure
        | some (treasury2, artist2) =>
          match chk_add U64LIM credit_line.credit_used amount with
          | none => .error .MathOverflow
          | some used2 =>
            match chk_sub label.committed_amount amount with
            | none => .error .MathOverflow
            | some committed2 =>
              .ok ({ label with committed_amount := committed2 },
                { credit_line with credit_used := used2 },
                treasury2, artist2)

/-- Handler of `repay_credit`: validates a positive amount and an active
credit line, caps the repayment at the outstanding balance
`credit_used − credit_repaid`, transfers the capped amount from the artist
to the label treasury, adds it to `credit_repaid` (closing the line when
`credit_repaid` reaches `credit_used`) and to the label `total_repaid`.
Returns `(label, credit_line, artist_account, label_treasury)`. -/
def repay_credit (label : LabelExternal) (credit_line : CreditLine)
    (artist_account label_treasury amount : Nat) :
    Except LabelError (LabelExternal × CreditLine × Nat × Nat) :=
  if ¬ amount > 0 then .error .InvalidAmount
  else if ¬ credit_line.is_active then .error .CreditLineInactive
  else
    match chk_sub credit_line.credit_used credit_line.credit_repaid with
    | none => .error .MathOverflow
    | some remaining_balance =>
      let actual_repayment := min amount remaining_balance
      match spl_transfer artist_account label_treasury actual_repayment with
      | none => .error .SplTokenFailure
      | some (artist2, treasury2) =>
        match chk_add U64LIM credit_line.credit_repaid actual_repayment with
        | none => .error .MathOverflow
        | some repaid2 =>
          let credit_line2 :=
            if repaid2 ≥ credit_line.credit_used then
              { credit_line with credit_repaid := repaid2, is_active := false }
            else
              { credit_line with credit_repaid := repaid2 }
          match chk_add U64LIM label.total_repaid actual_repayment with
          | none => .error .MathOverflow
          | some label_repaid2 =>
            .ok ({ label with total_repaid := label_repaid2 },
              credit_line2, artist2, treasury2)

/-- Handler of `settle_with_dao`: validates a positive amount, an active
label and a sufficient raw treasury balance (the committed amount is not
consulted) and transfers the amount from the label treasury to the DAO
treasury.  Returns `(label_treasury, dao_treasury)`. -/
def settle_with_dao (label : LabelExternal) (label_treasury dao_treasury amount : Nat) :
    Except LabelError (Nat × Nat) :=
  if ¬ amount > 0 then .error .InvalidAmount
  else if ¬ label.is_active then .error .LabelInactive
  else if ¬ label_treasury ≥ amount then .error .InsufficientLabelFunds
  else
    match spl_transfer label_treasury dao_treasury amount with
    | none => .error .SplTokenFailure
    | some (treasury2, dao2) => .ok (treasury2, dao2)

/-- Full on-chain state touched by the label-subdao program: the
`LabelExternal` account, the label USDC treasury, the parent DAO treasury,
one artist USDC account, and the proposal and credit-line PDAs keyed by
their `campaign_id` seeds. -/
structure LabelChainState where
  label : LabelExternal
  label_treasury : Nat
  dao_treasury : Nat
  artist_account : Nat
  proposals : List ArtistProposal
  credit_lines : List CreditLine
  deriving Repr, DecidableEq

/-- Instructions of the label-subdao program.  Proposal and credit-line
accounts are addressed by their position in the state lists. -/
inductive LabelIx where
  | submitIx (artist_name campaign_id : String) (requested_amount : Nat)
      (campaign_description : String) (revenue_projection : Nat)
  | executeIx (i : Nat)
  | drawIx (i amount : Nat)
  | repayIx (i amount : Nat)
  | settleIx (amount : Nat)
  deriving Repr, DecidableEq

/-- One label-subdao instruction applied to the on-chain state.  The
Anchor `init` constraints are modelled by the PDA-seed uniqueness checks:
a proposal PDA is seeded by `campaign_id`, a credit-line PDA likewise. -/
def labelStep (s : LabelChainState) : LabelIx → Except LabelError LabelChainState
  | .submitIx artist_name campaign_id requested_amount descr revenue =>
    if s.proposals.any (fun p => p.campaign_id == campaign_id) then
      .error .AccountAlreadyInUse
    else
      match submit_artist_proposal s.label s.label_treasury artist_name
          campaign_id requested_amount descr revenue with
      | .error e => .error e
      | .ok p => .ok { s with proposals := s.proposals ++ [p] }
  | .executeIx i =>
    match s.proposals[i]? with
    | none => .error .AccountNotFound
    | some p =>
      if s.credit_lines.any (fun c => c.campaign_id == p.campaign_id) then
        .error .AccountAlreadyInUse
      else
        match execute_artist_funding s.label p with
        | .error e => .error e
        | .ok (label2, p2, cl) =>
          .ok { s with label := label2, proposals := s.proposals.set i p2,
                       credit_lines := s.credit_lines ++ [cl] }
  | .drawIx i amount =>
    match s.credit_lines[i]? with
    | none => .error .AccountNotFound
    | some cl =>
      match draw_credit s.label cl s.label_treasury s.artist_account amount with
      | .error e => .error e
      | .ok (label2, cl2, t2, a2) =>
        .ok { s with label := label2, credit_lines := s.credit_lines.set i cl2,
                     label_treasury := t2, artist_account := a2 }
  | .repayIx i amount =>
    match s.credit_lines[i]? with
    | none => .error .AccountNotFound
    | some cl =>
      match repay_credit s.label cl s.artist_account s.label_treasury amount with
      | .error e => .error e
      | .ok (label2, cl2, a2, t2) =>
        .ok { s with label := label2, credit_lines := s.credit_lines.set i cl2,
                     artist_account := a2, label_treasury := t2 }
  | .settleIx amount =>
    match settle_with_dao s.label s.label_treasury s.dao_treasury amount with
    | .error e => .error e
    | .ok (t2, d2) => .ok { s with label_treasury := t2, dao_treasury := d2 }

/-- Modelled from the spec: creation of the `LabelExternal` account is not
part of the three programs under `src` (no instruction initializes it);
per the spec a Label starts life, at DAO-proposal execution, with its
funded treasury, no deployments, no repayments and no committed funds. -/
def initialLabelState (treasury0 dao0 artist0 : Nat) : LabelChainState :=
  { label :=
      { initial_funding := treasury0
        total_deployed := 0
        total_repaid := 0
        committed_amount := 0
        is_active := true }
    label_treasury := treasury0
    dao_treasury := dao0
    artist_account := artist0
    proposals := []
    credit_lines := [] }

/-- Label states reachable from a fresh label by the instructions of
the program; all initial balances are `u64` values. -/
inductive labelReachable : LabelChainState → Prop
  | init (t d a : Nat) (ht : t < U64LIM) (hd : d < U64LIM) (ha : a < U64LIM) :
      labelReachable (initialLabelState t d a)
  | step (s : LabelChainState) (ix : LabelIx) (s' : LabelChainState)
      (hs : labelReachable s) (hstep : labelStep s ix = .ok s') :
      labelReachable s'

/-- Iterated `labelStep` (reflexive-transitive closure), used for
statements about all later states of a given state. -/
inductive labelSteps : LabelChainState → LabelChainState → Prop
  | refl (s : LabelChainState) : labelSteps s s
  | tail (s s' s'' : LabelChainState) (ix : LabelIx)
      (h : labelSteps s s') (hstep : labelStep s' ix = .ok s'') :
      labelSteps s s''

/-! ## superfan-dao program -/

/-- Error enum of `superfan-dao` (`SuperfanError` in the source), plus
constructors for SPL-token CPI failures and Anchor account constraint
failures. -/
inductive SuperfanError where
  | FeeTooHigh
  | NameTooLong
  | InvalidAmount
  | InvalidShare
  | InvalidTarget
  | InsufficientTreasuryFunds
  | ProposalNotPassed
  | LabelInactive
  | MathOverflow
  | SplTokenFailure
  | AccountAlreadyInUse
  | AccountNotFound
  deriving Repr, DecidableEq

/-- Source account struct `SuperfanDAO`; pubkeys and bump omitted. -/
structure SuperfanDAO where
  metadao_fee_bps : Nat
  total_labels_funded : Nat
  total_deployed_capital : Nat
  total_repayments : Nat
  deriving Repr, DecidableEq

/-- Source enum `ProposalStatus` of `superfan-dao`. -/
inductive ProposalStatus where
  | Pending
  | Passed
  | Failed
  | Executed
  | Cancelled
  deriving Repr, DecidableEq

/-- Source account struct `LabelProposal`; pubkeys, timestamp and bump
omitted, the `label` forward reference kept as a flag. -/
structure LabelProposal where
  label_name : String
  funding_amount : Nat
  curator_share_bps : Nat
  repayment_target_bps : Nat
  status : ProposalStatus
  label : Option Unit
  deriving Repr, DecidableEq

/-- Source account struct `LabelSubDAO` together with the accounts created
alongside it by `execute_label_funding`: its USDC treasury, its token mint
and the curator and DAO token-account balances of that mint.  Pubkeys,
timestamp and bump omitted. -/
structure LabelRec where
  name : String
  initial_funding : Nat
  curator_share_bps : Nat
  total_deployed : Nat
  total_repaid : Nat
  is_active : Bool
  treasury : Nat
  token_mint : SplMint
  curator_tokens : Nat
  dao_tokens : Nat
  deriving Repr, DecidableEq

/-- Handler of `initialize_dao`: validates the fee bound and returns the
fresh DAO account state. -/
def init_dao (metadao_fee_bps : Nat) : Except SuperfanError SuperfanDAO :=
  if ¬ metadao_fee_bps ≤ 1000 then .error .FeeTooHigh
  else .ok
    { metadao_fee_bps := metadao_fee_bps
      total_labels_funded := 0
      total_deployed_capital := 0
      total_repayments := 0 }

/-- Handler of `propose_label`: validates the name length, positive
amount and bps bounds, and requires the raw DAO treasury balance to cover
`funding_amount` (the DAO layer tracks no committed total); returns the
fresh proposal in `Pending`. -/
def propose_label (dao_treasury : Nat) (label_name : String)
    (funding_amount curator_share_bps repayment_target_bps : Nat) :
    Except SuperfanError LabelProposal :=
  if ¬ label_name.length ≤ 50 then .error .NameTooLong
  else if ¬ funding_amount > 0 then .error .InvalidAmount
  else if ¬ curator_share_bps ≤ 10000 then .error .InvalidShare
  else if ¬ repayment_target_bps ≤ 10000 then .error .InvalidTarget
  else if ¬ dao_treasury ≥ funding_amount then .error .InsufficientTreasuryFunds
  else .ok
    { label_name := label_name
      funding_amount := funding_amount
      curator_share_bps := curator_share_bps
      repayment_target_bps := repayment_target_bps
      status := .Pending
      label := none }

/-- Handler of `execute_label_funding`.  The handler body performs no
check of the proposal status (a TODO comment in the source defers the
futarchy verdict check).  It creates the label with a fresh (empty)
treasury, a fresh mint whose authority is the label, transfers
`funding_amount` from the DAO treasury, mints 50% of
`label_token_supply` to the curator and 10% to the DAO, removes the mint
authority permanently, updates the DAO counters, and marks the proposal
`Executed`.  Returns `(dao, proposal, new label, dao_treasury)`. -/
def execute_label_funding (dao : SuperfanDAO) (proposal : LabelProposal)
    (dao_treasury label_token_supply : Nat) :
    Except SuperfanError (SuperfanDAO × LabelProposal × LabelRec × Nat) :=
  let label0 : LabelRec :=
    { name := proposal.label_name
      initial_funding := proposal.funding_amount
      curator_share_bps := proposal.curator_share_bps
      total_deployed := 0
      total_repaid := 0
      is_active := true
      treasury := 0
      token_mint := { supply := 0, mint_authority := some () }
      curator_tokens := 0
      dao_tokens := 0 }
  match spl_transfer dao_treasury label0.treasury proposal.funding_amount with
  | none => .error .SplTokenFailure
  | some (dao_treasury2, label_treasury2) =>
    match chk_mul U64LIM label_token_supply 50 with
    | none => .error .MathOverflow
    | some ct50 =>
      match chk_div ct50 100 with
      | none => .error .MathOverflow
      | some curator_tokens =>
        match spl_mint_to label0.token_mint label0.curator_tokens curator_tokens with
        | none => .error .SplTokenFailure
        | some (mint2, curator_acct2) =>
          match chk_mul U64LIM label_token_supply 10 with
          | none => .error .MathOverflow
          | some dt10 =>
            match chk_div dt10 100 with
            | none => .error .MathOverflow
            | some dao_tokens =>
              match spl_mint_to mint2 label0.dao_tokens dao_tokens with
              | none => .error .SplTokenFailure
              | some (mint3, dao_acct2) =>
                let mint4 := spl_remove_mint_authority mint3
                match chk_add U64LIM dao.total_labels_funded 1 with
                | none => .error .MathOverflow
                | some funded2 =>
                  match chk_add U64LIM dao.total_deployed_capital
                      proposal.funding_amount with
                  | none => .error .MathOverflow
                  | some deployed2 =>
                    .ok ({ dao with total_labels_funded := funded2,
                                    total_deployed_capital := deployed2 },
                      { proposal with status := .Executed, label := some () },
                      { label0 with treasury := label_treasury2,
                                    token_mint := mint4,
                                    curator_tokens := curator_acct2,
                                    dao_tokens := dao_acct2 },
                      dao_treasury2)

/-- Handler of `record_label_repayment`: validates a positive amount and
an active label, transfers the amount from the label treasury to the DAO
treasury, computes the protocol fee in `u128` (logged only), and adds the
amount to the label `total_repaid` and the DAO `total_repayments`.
Returns `(dao, label, dao_treasury)`. -/
def record_label_repayment (dao : SuperfanDAO) (label : LabelRec)
    (dao_treasury amount : Nat) :
    Except SuperfanError (SuperfanDAO × LabelRec × Nat) :=
  if ¬ amount > 0 then .error .InvalidAmount
  else if ¬ label.is_active then .error .LabelInactive
  else
    match spl_transfer label.treasury dao_treasury amount with
    | none => .error .SplTokenFailure
    | some (label_treasury2, dao_treasury2) =>
      match chk_mul U128LIM amount dao.metadao_fee_bps with
      | none => .error .MathOverflow
      | some fee_num =>
        match chk_div fee_num 10000 with
        | none => .error .MathOverflow
        | some _protocol_fee =>
          match chk_add U64LIM label.total_repaid amount with
          | none => .error .MathOverflow
          | some label_repaid2 =>
            match chk_add U64LIM dao.total_repayments amount with
            | none => .error .MathOverflow
            | some repayments2 =>
              .ok ({ dao with total_repayments := repayments2 },
                { label with treasury := label_treasury2,
                             total_repaid := label_repaid2 },
                dao_treasury2)

/-- Handler of `pay_protocol_fee`: validates a positive amount and
transfers it from the DAO treasury to the MetaDAO treasury.  Returns
`(dao_treasury, metadao_treasury)`. -/
def pay_protocol_fee (dao_treasury metadao_treasury amount : Nat) :
    Except SuperfanError (Nat × Nat) :=
  if ¬ amount > 0 then .error .InvalidAmount
  else
    match spl_transfer dao_treasury metadao_treasury amount with
    | none => .error .SplTokenFailure
    | some (t2, m2) => .ok (t2, m2)

/-- Full on-chain state touched by the superfan-dao program: the DAO
account, its USDC treasury, the MetaDAO treasury, and the proposal and
label PDAs keyed by their `label_name` seeds. -/
structure DaoChainState where
  dao : SuperfanDAO
  dao_treasury : Nat
  metadao_treasury : Nat
  proposals : List LabelProposal
  labels : List LabelRec
  deriving Repr, DecidableEq

/-- Instructions of the superfan-dao program after DAO creation.
Proposal and label accounts are addressed by list position. -/
inductive DaoIx where
  | proposeIx (label_name : String)
      (funding_amount curator_share_bps repayment_target_bps : Nat)
  | executeIx (i label_token_supply : Nat)
  | recordRepaymentIx (j amount : Nat)
  | payFeeIx (amount : Nat)
  deriving Repr, DecidableEq

/-- One superfan-dao instruction applied to the on-chain state.  The
Anchor `init` constraints are modelled by PDA-seed uniqueness: proposal
PDAs and label PDAs are both seeded by the label name, so `executeIx`
fails on a label name whose label account already exists. -/
def daoStep (s : DaoChainState) : DaoIx → Except SuperfanError DaoChainState
  | .proposeIx label_name funding curator_bps target_bps =>
    if s.proposals.any (fun p => p.label_name == label_name) then
      .error .AccountAlreadyInUse
    else
      match propose_label s.dao_treasury label_name funding curator_bps
          target_bps with
      | .error e => .error e
      | .ok p => .ok { s with proposals := s.proposals ++ [p] }
  | .executeIx i label_token_supply =>
    match s.proposals[i]? with
    | none => .error .AccountNotFound
    | some p =>
      if s.labels.any (fun l => l.name == p.label_name) then
        .error .AccountAlreadyInUse
      else
        match execute_label_funding s.dao p s.dao_treasury label_token_supply with
        | .error e => .error e
        | .ok (dao2, p2, lbl, dt2) =>
          .ok { s with dao := dao2, proposals := s.proposals.set i p2,
                       labels := s.labels ++ [lbl], dao_treasury := dt2 }
  | .recordRepaymentIx j amount =>
    match s.labels[j]? with
    | none => .error .AccountNotFound
    | some lbl =>
      match record_label_repayment s.dao lbl s.dao_treasury amount with
      | .error e => .error e
      | .ok (dao2, lbl2, dt2) =>
        .ok { s with dao := dao2, labels := s.labels.set j lbl2,
                     dao_treasury := dt2 }
  | .payFeeIx amount =>
    match pay_protocol_fee s.dao_treasury s.metadao_treasury amount with
    | .error e => .error e
    | .ok (t2, m2) => .ok { s with dao_treasury := t2, metadao_treasury := m2 }

/-- DAO states reachable from a freshly initialized DAO; initial balances
are `u64` values. -/
inductive daoReachable : DaoChainState → Prop
  | init (fee t m : Nat) (dao : SuperfanDAO)
      (hdao : init_dao fee = .ok dao)
      (ht : t < U64LIM) (hm : m < U64LIM) :
      daoReachable
        { dao := dao, dao_treasury := t, metadao_treasury := m,
          proposals := [], labels := [] }
  | step (s : DaoChainState) (ix : DaoIx) (s' : DaoChainState)
      (hs : daoReachable s) (hstep : daoStep s ix = .ok s') :
      daoReachable s'

/-- Shorthand for the capped repayment the `repay_credit` handler
computes. -/
def actualRepayment (cl : CreditLine) (amount : Nat) : Nat :=
  min amount (cl.credit_used - cl.credit_repaid)

/-- Aggregate undrawn commitment recorded by the credit lines:
the sum over all lines of `credit_limit − credit_used`. -/
def committedSum : List CreditLine → Nat
  | [] => 0
  | c :: cs => (c.credit_limit - c.credit_used) + committedSum cs

/-- Inductive invariant of the label machine: the `committed_amount`
counter equals the aggregate undrawn commitment of the credit lines. -/
def labelInv (s : LabelChainState) : Prop :=
  s.label.committed_amount = committedSum s.credit_lines

/-- Requested amounts summed over the proposals now in `Pending` or
`Approved` status. -/
def pendingApprovedSum : List ArtistProposal → Nat
  | [] => 0
  | p :: ps =>
    (if p.status = .Pending ∨ p.status = .Approved then p.requested_amount
     else 0) + pendingApprovedSum ps

/-- Iterated `presaleStep` (reflexive-transitive closure). -/
inductive presaleSteps : PresaleState → PresaleState → Prop
  | refl (s : PresaleState) : presaleSteps s s
  | tail (s s' s'' : PresaleState) (ix : PresaleIx)
      (h : presaleSteps s s') (hstep : presaleStep s' ix = .ok s'') :
      presaleSteps s s''

/-! ### Concrete states used in the example runs

A label treasury of 10,000 accepts two 6,000 proposals while both are
pending (nothing is reserved at submission time); executing both commits
12,000 against the 10,000 balance. -/

def exProposalA : ArtistProposal :=
  { artist_name := "artist", campaign_id := "a", requested_amount := 6000,
    campaign_description := "", revenue_projection := 0,
    status := .Pending, credit_line := none }

def exProposalB : ArtistProposal :=
  { exProposalA with campaign_id := "b" }

def exS0 : LabelChainState := initialLabelState 10000 0 0

def exS1 : LabelChainState := { exS0 with proposals := [exProposalA] }

def exS2 : LabelChainState :=
  { exS0 with proposals := [exProposalA, exProposalB] }

def exS3 : LabelChainState :=
  { exS0 with
    label := { initial_funding := 10000, total_deployed := 6000,
               total_repaid := 0, committed_amount := 6000,
               is_active := true }
    proposals := [{ exProposalA with
                      status := .Approved, credit_line := some () },
                  exProposalB]
    credit_lines := [{ campaign_id := "a", credit_limit := 6000,
                       credit_used := 0, credit_repaid := 0,
                       is_active := true }] }

def exS4 : LabelChainState :=
  { exS0 with
    label := { initial_funding := 10000, total_deployed := 12000,
               total_repaid := 0, committed_amount := 12000,
               is_active := true }
    proposals := [{ exProposalA with
                      status := .Approved, credit_line := some () },
                  { exProposalB with
                      status := .Approved, credit_line := some () }]
    credit_lines := [{ campaign_id := "a", credit_limit := 6000,
                       credit_used := 0, credit_repaid := 0,
                       is_active := true },
                     { campaign_id := "b", credit_limit := 6000,
                       credit_used := 0, credit_repaid := 0,
                       is_active := true }] }

/-- A presale run: price 100, a buyer holding 250 USDC who buys 200
worth, then the campaign is closed. -/
def exP0 : PresaleState :=
  { campaign := { campaign_id := "c", price_per_token_usdc := 100,
                  total_supply := none, tokens_sold := 0, usdc_raised := 0,
                  is_active := true },
    treasury := 0, buyer_usdc := 250, buyer_tokens := 0,
    token_mint := { supply := 0, mint_authority := some () },
    authority_usdc := 0 }

def exP1 : PresaleState :=
  { exP0 with
    campaign := { exP0.campaign with tokens_sold := 2, usdc_raised := 200 }
    treasury := 200, buyer_usdc := 50, buyer_tokens := 2,
    token_mint := { supply := 2, mint_authority := some () } }

def exP2 : PresaleState :=
  { exP1 with campaign := { exP1.campaign with is_active := false } }

/-- The presale run on a capped campaign (cap 10): one 250-USDC purchase
at price 100 buys exactly 2 tokens for 200. -/
def exQ0 : PresaleState :=
  { exP0 with
    campaign := { exP0.campaign with
                    campaign_id := "q", total_supply := some 10 } }

def exQ1 : PresaleState :=
  { exQ0 with
    campaign := { exQ0.campaign with tokens_sold := 2, usdc_raised := 200 }
    treasury := 200, buyer_usdc := 50, buyer_tokens := 2,
    token_mint := { supply := 2, mint_authority := some () } }

/-- A DAO with fee 500 bps and a 10,000 treasury, and label proposals in
various statuses. -/
def exDao : SuperfanDAO :=
  { metadao_fee_bps := 500, total_labels_funded := 0,
    total_deployed_capital := 0, total_repayments := 0 }

def exLabelProposal : LabelProposal :=
  { label_name := "l", funding_amount := 6000, curator_share_bps := 8000,
    repayment_target_bps := 10000, status := .Pending, label := none }

def exLabelProposalCancelled : LabelProposal :=
  { exLabelProposal with status := .Cancelled }

def exArtistProposalRejected : ArtistProposal :=
  { exProposalA with status := .Rejected }


/-! ## Evaluation lemmas for the checked primitives -/

theorem chk_add_eq {lim a b : Nat} (h : a + b < lim) :
    chk_add lim a b = some (a + b) := by
  unfold chk_add; rw [if_pos h]

theorem chk_sub_eq {a b : Nat} (h : b ≤ a) :
    chk_sub a b = some (a - b) := by
  unfold chk_sub; rw [if_pos h]

theorem chk_mul_eq {lim a b : Nat} (h : a * b < lim) :
    chk_mul lim a b = some (a * b) := by
  unfold chk_mul; rw [if_pos h]

theorem chk_div_eq {a b : Nat} (h : b ≠ 0) :
    chk_div a b = some (a / b) := by
  unfold chk_div; rw [if_neg h]

theorem spl_transfer_eq {src dst amount : Nat} (h1 : amount ≤ src)
    (h2 : dst + amount < U64LIM) :
    spl_transfer src dst amount = some (src - amount, dst + amount) := by
  unfold spl_transfer; rw [if_pos h1, chk_add_eq h2]

theorem spl_mint_to_eq {m : SplMint} {dst amount : Nat}
    (hauth : m.mint_authority = some ())
    (h1 : m.supply + amount < U64LIM) (h2 : dst + amount < U64LIM) :
    spl_mint_to m dst amount =
      some ({ m with supply := m.supply + amount }, dst + amount) := by
  unfold spl_mint_to; rw [hauth, chk_add_eq h1, chk_add_eq h2]

theorem chk_add_inv {lim a b c : Nat} (h : chk_add lim a b = some c) :
    c = a + b ∧ a + b < lim := by
  unfold chk_add at h; split at h <;> simp_all

theorem chk_sub_inv {a b c : Nat} (h : chk_sub a b = some c) :
    c = a - b ∧ b ≤ a := by
  unfold chk_sub at h; split at h <;> simp_all

theorem chk_mul_inv {lim a b c : Nat} (h : chk_mul lim a b = some c) :
    c = a * b ∧ a * b < lim := by
  unfold chk_mul at h; split at h <;> simp_all

theorem chk_div_inv {a b c : Nat} (h : chk_div a b = some c) :
    c = a / b ∧ b ≠ 0 := by
  unfold chk_div at h; split at h <;> simp_all

theorem spl_transfer_inv {src dst amount : Nat} {p : Nat × Nat}
    (h : spl_transfer src dst amount = some p) :
    amount ≤ src ∧ dst + amount < U64LIM ∧ p = (src - amount, dst + amount) := by
  unfold spl_transfer at h
  split at h
  · split at h
    · next heq =>
      obtain ⟨rfl, h2⟩ := chk_add_inv heq
      simp_all
    · exact Option.noConfusion h
  · exact Option.noConfusion h

theorem spl_mint_to_inv {m : SplMint} {dst amount : Nat} {p : SplMint × Nat}
    (h : spl_mint_to m dst amount = some p) :
    m.mint_authority = some () ∧ m.supply + amount < U64LIM ∧
    dst + amount < U64LIM ∧
    p = ({ m with supply := m.supply + amount }, dst + amount) := by
  unfold spl_mint_to at h
  split at h
  · exact Option.noConfusion h
  · split at h
    · next heq1 heq2 =>
      obtain ⟨rfl, h1⟩ := chk_add_inv heq1
      obtain ⟨rfl, h2⟩ := chk_add_inv heq2
      simp_all
    · exact Option.noConfusion h
theorem repay_credit_ok (label : LabelExternal) (cl : CreditLine)
    (artist treasury amount : Nat)
    (hact : cl.is_active = true) (hle : cl.credit_repaid ≤ cl.credit_used)
    (hused : cl.credit_used < U64LIM) (hpos : 0 < amount)
    (hart : actualRepayment cl amount ≤ artist)
    (htre : treasury + actualRepayment cl amount < U64LIM)
    (htot : label.total_repaid + actualRepayment cl amount < U64LIM) :
    repay_credit label cl artist treasury amount = .ok
      ({ label with total_repaid := label.total_repaid + actualRepayment cl amount },
       if cl.credit_repaid + actualRepayment cl amount ≥ cl.credit_used then
         { cl with credit_repaid := cl.credit_repaid + actualRepayment cl amount,
                   is_active := false }
       else
         { cl with credit_repaid := cl.credit_repaid + actualRepayment cl amount },
       artist - actualRepayment cl amount,
       treasury + actualRepayment cl amount) := by
  have hrep : cl.credit_repaid + actualRepayment cl amount < U64LIM := by
    have := Nat.min_le_right amount (cl.credit_used - cl.credit_repaid)
    unfold actualRepayment; omega
  unfold repay_credit actualRepayment at *
  rw [if_neg (by omega), if_neg (by simp [hact]), chk_sub_eq hle]
  simp only [spl_transfer_eq hart htre, chk_add_eq hrep, chk_add_eq htot]

/-! ## Inversion lemmas: what a successful handler call implies -/

theorem submit_artist_proposal_inv {label : LabelExternal} {t : Nat}
    {an cid : String} {r : Nat} {d : String} {rev : Nat} {p : ArtistProposal}
    (h : submit_artist_proposal label t an cid r d rev = .ok p) :
    p = { artist_name := an, campaign_id := cid, requested_amount := r,
          campaign_description := d, revenue_projection := rev,
          status := .Pending, credit_line := none } ∧
    0 < r ∧ label.committed_amount ≤ t ∧
    r ≤ t - label.committed_amount ∧ label.is_active = true := by
  unfold submit_artist_proposal at h
  repeat' split at h
  all_goals try exact Except.noConfusion h
  rename_i h1 h2 h3 h4 h5 _ avail hsub h6
  obtain ⟨rfl, hct⟩ := chk_sub_inv hsub
  cases h
  exact ⟨rfl, by omega, hct, by omega, by simpa using h5⟩

theorem execute_artist_funding_inv {label : LabelExternal}
    {proposal : ArtistProposal}
    {out : LabelExternal × ArtistProposal × CreditLine}
    (h : execute_artist_funding label proposal = .ok out) :
    proposal.status = .Pending ∧
    label.total_deployed + proposal.requested_amount < U64LIM ∧
    label.committed_amount + proposal.requested_amount < U64LIM ∧
    out = ({ label with
              total_deployed := label.total_deployed + proposal.requested_amount,
              committed_amount := label.committed_amount + proposal.requested_amount },
           { proposal with status := .Approved, credit_line := some () },
           { campaign_id := proposal.campaign_id,
             credit_limit := proposal.requested_amount,
             credit_used := 0, credit_repaid := 0, is_active := true }) := by
  unfold execute_artist_funding at h
  repeat' split at h
  all_goals try exact Except.noConfusion h
  rename_i hpend _ dep2 hadd1 _ com2 hadd2
  obtain ⟨rfl, hd⟩ := chk_add_inv hadd1
  obtain ⟨rfl, hc⟩ := chk_add_inv hadd2
  cases h
  exact ⟨by simpa using hpend, hd, hc, rfl⟩

theorem repay_credit_inv {label : LabelExternal} {cl : CreditLine}
    {artist treasury amount : Nat}
    {out : LabelExternal × CreditLine × Nat × Nat}
    (h : repay_credit label cl artist treasury amount = .ok out) :
    0 < amount ∧ cl.is_active = true ∧ cl.credit_repaid ≤ cl.credit_used ∧
    actualRepayment cl amount ≤ artist ∧
    treasury + actualRepayment cl amount < U64LIM ∧
    label.total_repaid + actualRepayment cl amount < U64LIM ∧
    out = ({ label with total_repaid :=
               label.total_repaid + actualRepayment cl amount },
           if cl.credit_repaid + actualRepayment cl amount ≥ cl.credit_used then
             { cl with
               credit_repaid := cl.credit_repaid + actualRepayment cl amount,
               is_active := false }
           else
             { cl with
               credit_repaid := cl.credit_repaid + actualRepayment cl amount },
           artist - actualRepayment cl amount,
           treasury + actualRepayment cl amount) := by
  unfold repay_credit at h
  split at h; · exact Except.noConfusion h
  next hpos =>
  split at h; · exact Except.noConfusion h
  next hact =>
  split at h; · exact Except.noConfusion h
  next rem hsub =>
  obtain ⟨rfl, hur⟩ := chk_sub_inv hsub
  simp only [] at h
  split at h; · exact Except.noConfusion h
  next art2 tre2 htr =>
  split at h; · exact Except.noConfusion h
  next rep2 hadd =>
  split at h; · exact Except.noConfusion h
  next lab2 hadd2 =>
  obtain ⟨hta, htb, hpair⟩ := spl_transfer_inv htr
  obtain ⟨rfl, hra⟩ := chk_add_inv hadd
  obtain ⟨rfl, hla⟩ := chk_add_inv hadd2
  cases hpair
  cases h
  exact ⟨by omega, by simpa using hact, hur, hta, htb, hla, rfl⟩

theorem settle_with_dao_inv {label : LabelExternal}
    {label_treasury dao_treasury amount : Nat} {out : Nat × Nat}
    (h : settle_with_dao label label_treasury dao_treasury amount = .ok out) :
    0 < amount ∧ label.is_active = true ∧ amount ≤ label_treasury ∧
    dao_treasury + amount < U64LIM ∧
    out = (label_treasury - amount, dao_treasury + amount) := by
  unfold settle_with_dao at h
  repeat' split at h
  all_goals try exact Except.noConfusion h
  rename_i hpos hact hbal _ t2 d2 htr
  obtain ⟨hta, htb, hpair⟩ := spl_transfer_inv htr
  cases hpair
  cases h
  exact ⟨by omega, by simpa using hact, by omega, htb, rfl⟩

/-- A `draw_credit` call on an inactive credit line always fails. -/
theorem draw_credit_inactive {label : LabelExternal} {cl : CreditLine}
    {t a amount : Nat} (hcl : cl.is_active = false) :
    draw_credit label cl t a amount =
      .error (if amount = 0 then .InvalidAmount else .CreditLineInactive) := by
  unfold draw_credit
  by_cases h0 : amount = 0
  · rw [if_pos (by omega), if_pos h0]
  · rw [if_neg (by omega), if_pos (by simp [hcl]), if_neg h0]

/-- A `repay_credit` call on an inactive credit line always fails. -/
theorem repay_credit_inactive {label : LabelExternal} {cl : CreditLine}
    {a t amount : Nat} (hcl : cl.is_active = false) :
    repay_credit label cl a t amount =
      .error (if amount = 0 then .InvalidAmount else .CreditLineInactive) := by
  unfold repay_credit
  by_cases h0 : amount = 0
  · rw [if_pos (by omega), if_pos h0]
  · rw [if_neg (by omega), if_pos (by simp [hcl]), if_neg h0]

theorem init_campaign_inv {cid : String} {price : Nat} {cap : Option Nat}
    {c : Campaign} (h : init_campaign cid price cap = .ok c) :
    cid.length ≤ 50 ∧ 0 < price ∧
    c = { campaign_id := cid, price_per_token_usdc := price,
          total_supply := cap, tokens_sold := 0, usdc_raised := 0,
          is_active := true } := by
  unfold init_campaign at h
  repeat' split at h
  all_goals try exact Except.noConfusion h
  rename_i h1 h2
  cases h
  exact ⟨by omega, by omega, rfl⟩

theorem buyPresaleRest_inv {c : Campaign} {tr bu bt : Nat} {m : SplMint}
    {usdc t : Nat} {out : Campaign × Nat × Nat × Nat × SplMint}
    (h : buy_presale.buyPresaleRest c tr bu bt m usdc t = .ok out) :
    t * c.price_per_token_usdc ≤ usdc ∧
    t * c.price_per_token_usdc ≤ bu ∧
    tr + t * c.price_per_token_usdc < U64LIM ∧
    m.mint_authority = some () ∧
    m.supply + t < U64LIM ∧ bt + t < U64LIM ∧
    c.tokens_sold + t < U64LIM ∧
    c.usdc_raised + t * c.price_per_token_usdc < U64LIM ∧
    out = ({ c with tokens_sold := c.tokens_sold + t,
                    usdc_raised := c.usdc_raised + t * c.price_per_token_usdc },
           tr + t * c.price_per_token_usdc,
           bu - t * c.price_per_token_usdc,
           bt + t,
           { m with supply := m.supply + t }) := by
  unfold buy_presale.buyPresaleRest at h
  repeat' split at h
  all_goals try exact Except.noConfusion h
  rename_i _ actual hmul _ refund hsub _ bu2 tr2 htr _ m2 bt2 hmint _ sold2 hadd _ raised2 hadd2
  obtain ⟨rfl, hm⟩ := chk_mul_inv hmul
  obtain ⟨rfl, hs⟩ := chk_sub_inv hsub
  obtain ⟨hta, htb, hpair⟩ := spl_transfer_inv htr
  obtain ⟨hauth, hsup, hbt, hpair2⟩ := spl_mint_to_inv hmint
  obtain ⟨rfl, ha⟩ := chk_add_inv hadd
  obtain ⟨rfl, ha2⟩ := chk_add_inv hadd2
  cases hpair
  cases hpair2
  cases h
  exact ⟨hs, hta, htb, hauth, hsup, hbt, ha, ha2, rfl⟩

theorem buy_presale_inv {c : Campaign} {tr bu bt : Nat} {m : SplMint}
    {usdc : Nat} {out : Campaign × Nat × Nat × Nat × SplMint}
    (h : buy_presale c tr bu bt m usdc = .ok out) :
    c.is_active = true ∧ 0 < usdc ∧ c.price_per_token_usdc ≠ 0 ∧
    0 < usdc / c.price_per_token_usdc ∧
    (∀ cap, c.total_supply = some cap →
      c.tokens_sold + usdc / c.price_per_token_usdc ≤ cap) ∧
    buy_presale.buyPresaleRest c tr bu bt m usdc
      (usdc / c.price_per_token_usdc) = .ok out := by
  unfold buy_presale at h
  split at h; · exact Except.noConfusion h
  next hact =>
  split at h; · exact Except.noConfusion h
  next hpos =>
  split at h; · exact Except.noConfusion h
  next t hdiv =>
  obtain ⟨rfl, hp⟩ := chk_div_inv hdiv
  split at h; · exact Except.noConfusion h
  next ht =>
  split at h
  · next cap heq =>
    split at h; · exact Except.noConfusion h
    next nt hadd =>
    obtain ⟨rfl, hn⟩ := chk_add_inv hadd
    split at h; · exact Except.noConfusion h
    next hcap =>
    refine ⟨by simpa using hact, by omega, hp, by omega, ?_, h⟩
    intro cap2 hc2
    rw [heq] at hc2
    cases hc2
    omega
  · next heq =>
    refine ⟨by simpa using hact, by omega, hp, by omega, ?_, h⟩
    intro cap2 hc2
    rw [heq] at hc2
    exact Option.noConfusion hc2

theorem withdraw_funds_inv {c : Campaign} {treasury auth amount : Nat}
    {out : Nat × Nat}
    (h : withdraw_funds c treasury auth amount = .ok out) :
    0 < amount ∧ amount ≤ treasury ∧ auth + amount < U64LIM ∧
    out = (treasury - amount, auth + amount) := by
  unfold withdraw_funds at h
  repeat' split at h
  all_goals try exact Except.noConfusion h
  rename_i h1 h2 _ t2 a2 htr
  obtain ⟨hta, htb, hpair⟩ := spl_transfer_inv htr
  cases hpair
  cases h
  exact ⟨by omega, by omega, htb, rfl⟩

/-- A successful `withdraw_funds` call for any amount within the treasury
balance, independently of `is_active`. -/
theorem withdraw_funds_ok {c : Campaign} {treasury auth amount : Nat}
    (h1 : 0 < amount) (h2 : amount ≤ treasury) (h3 : auth + amount < U64LIM) :
    withdraw_funds c treasury auth amount = .ok (treasury - amount, auth + amount) := by
  unfold withdraw_funds
  rw [if_neg (by omega), if_neg (by omega), spl_transfer_eq h2 h3]

theorem propose_label_inv {t : Nat} {name : String} {f cb rb : Nat}
    {p : LabelProposal}
    (h : propose_label t name f cb rb = .ok p) :
    name.length ≤ 50 ∧ 0 < f ∧ cb ≤ 10000 ∧ rb ≤ 10000 ∧ f ≤ t ∧
    p = { label_name := name, funding_amount := f, curator_share_bps := cb,
          repayment_target_bps := rb, status := .Pending, label := none } := by
  unfold propose_label at h
  repeat' split at h
  all_goals try exact Except.noConfusion h
  rename_i h1 h2 h3 h4 h5
  cases h
  exact ⟨by omega, by omega, by omega, by omega, by omega, rfl⟩

theorem execute_label_funding_inv {dao : SuperfanDAO} {p : LabelProposal}
    {dt supply : Nat} {out : SuperfanDAO × LabelProposal × LabelRec × Nat}
    (h : execute_label_funding dao p dt supply = .ok out) :
    p.funding_amount ≤ dt ∧ p.funding_amount < U64LIM ∧
    supply * 50 < U64LIM ∧ supply * 10 < U64LIM ∧
    dao.total_labels_funded + 1 < U64LIM ∧
    dao.total_deployed_capital + p.funding_amount < U64LIM ∧
    out = ({ dao with total_labels_funded := dao.total_labels_funded + 1,
                      total_deployed_capital :=
                        dao.total_deployed_capital + p.funding_amount },
           { p with status := .Executed, label := some () },
           { name := p.label_name, initial_funding := p.funding_amount,
             curator_share_bps := p.curator_share_bps,
             total_deployed := 0, total_repaid := 0, is_active := true,
             treasury := p.funding_amount,
             token_mint := { supply := supply * 50 / 100 + supply * 10 / 100,
                             mint_authority := none },
             curator_tokens := supply * 50 / 100,
             dao_tokens := supply * 10 / 100 },
           dt - p.funding_amount) := by
  unfold execute_label_funding at h
  simp only [] at h
  split at h; · exact Except.noConfusion h
  next dt2 lt2 htr =>
  obtain ⟨hta, htb, hpair⟩ := spl_transfer_inv htr
  cases hpair
  split at h; · exact Except.noConfusion h
  next c50 hmul =>
  obtain ⟨rfl, hm50⟩ := chk_mul_inv hmul
  split at h; · exact Except.noConfusion h
  next ct hdivc =>
  obtain ⟨rfl, _⟩ := chk_div_inv hdivc
  split at h; · exact Except.noConfusion h
  next mint2 ca2 hmint =>
  obtain ⟨_, hsup, hca, hpair2⟩ := spl_mint_to_inv hmint
  cases hpair2
  split at h; · exact Except.noConfusion h
  next d10 hmul2 =>
  obtain ⟨rfl, hm10⟩ := chk_mul_inv hmul2
  split at h; · exact Except.noConfusion h
  next dt10 hdivd =>
  obtain ⟨rfl, _⟩ := chk_div_inv hdivd
  split at h; · exact Except.noConfusion h
  next mint3 da2 hmint2 =>
  obtain ⟨_, hsup2, hda, hpair3⟩ := spl_mint_to_inv hmint2
  cases hpair3
  split at h; · exact Except.noConfusion h
  next funded2 haddf =>
  obtain ⟨rfl, hf⟩ := chk_add_inv haddf
  split at h; · exact Except.noConfusion h
  next deployed2 haddd =>
  obtain ⟨rfl, hd⟩ := chk_add_inv haddd
  cases h
  refine ⟨hta, by omega, hm50, hm10, hf, hd, ?_⟩
  simp [spl_remove_mint_authority]

theorem record_label_repayment_inv {dao : SuperfanDAO} {label : LabelRec}
    {dt amount : Nat} {out : SuperfanDAO × LabelRec × Nat}
    (h : record_label_repayment dao label dt amount = .ok out) :
    0 < amount ∧ label.is_active = true ∧ amount ≤ label.treasury ∧
    dt + amount < U64LIM ∧
    label.total_repaid + amount < U64LIM ∧
    dao.total_repayments + amount < U64LIM ∧
    out = ({ dao with total_repayments := dao.total_repayments + amount },
           { label with treasury := label.treasury - amount,
                        total_repaid := label.total_repaid + amount },
           dt + amount) := by
  unfold record_label_repayment at h
  repeat' split at h
  all_goals try exact Except.noConfusion h
  rename_i hpos hact _ lt2 dt2 htr _ fee hmul _ pf hdiv _ lr2 hadd _ rp2 hadd2
  obtain ⟨hta, htb, hpair⟩ := spl_transfer_inv htr
  obtain ⟨rfl, hl⟩ := chk_add_inv hadd
  obtain ⟨rfl, hr⟩ := chk_add_inv hadd2
  cases hpair
  cases h
  exact ⟨by omega, by simpa using hact, hta, htb, hl, hr, rfl⟩

theorem pay_protocol_fee_inv {dt mt amount : Nat} {out : Nat × Nat}
    (h : pay_protocol_fee dt mt amount = .ok out) :
    0 < amount ∧ amount ≤ dt ∧ mt + amount < U64LIM ∧
    out = (dt - amount, mt + amount) := by
  unfold pay_protocol_fee at h
  repeat' split at h
  all_goals try exact Except.noConfusion h
  rename_i hpos _ t2 m2 htr
  obtain ⟨hta, htb, hpair⟩ := spl_transfer_inv htr
  cases hpair
  cases h
  exact ⟨by omega, hta, htb, rfl⟩

/-! ## List helper lemmas -/

theorem lget_set_self {α : Type} (l : List α) (i : Nat) (b : α)
    (h : i < l.length) : (l.set i b)[i]? = some b := by
  induction l generalizing i with
  | nil => simp at h
  | cons x xs ih =>
    cases i with
    | zero => simp
    | succ i => simpa using ih i (by simpa using h)

theorem lget_set_ne {α : Type} (l : List α) (i j : Nat) (b : α)
    (h : i ≠ j) : (l.set j b)[i]? = l[i]? := by
  induction l generalizing i j with
  | nil => simp
  | cons x xs ih =>
    cases j with
    | zero =>
      cases i with
      | zero => exact absurd rfl h
      | succ i => simp
    | succ j =>
      cases i with
      | zero => simp
      | succ i => simpa using ih i j (by omega)

theorem lget_append_left {α : Type} (l : List α) (c : α) (i : Nat)
    (h : i < l.length) : (l ++ [c])[i]? = l[i]? := by
  induction l generalizing i with
  | nil => simp at h
  | cons x xs ih =>
    cases i with
    | zero => simp
    | succ i => simpa using ih i (by simpa using h)

theorem lget_mem {α : Type} (l : List α) (i : Nat) (x : α)
    (h : l[i]? = some x) : x ∈ l := by
  induction l generalizing i with
  | nil => simp at h
  | cons y xs ih =>
    cases i with
    | zero =>
      simp only [List.getElem?_cons_zero, Option.some.injEq] at h
      exact h ▸ List.mem_cons_self y _
    | succ i =>
      simp only [List.getElem?_cons_succ] at h
      exact List.mem_cons_of_mem _ (ih i h)

theorem lmem_set {α : Type} (l : List α) (i : Nat) (b x : α)
    (h : x ∈ l.set i b) : x ∈ l ∨ x = b := by
  induction l generalizing i with
  | nil => exact .inl h
  | cons y xs ih =>
    cases i with
    | zero =>
      rcases List.mem_cons.mp h with h | h
      · exact .inr h
      · exact .inl (List.mem_cons_of_mem _ h)
    | succ i =>
      rcases List.mem_cons.mp h with h | h
      · exact .inl (h ▸ List.mem_cons_self y xs)
      · rcases ih i h with h | h
        · exact .inl (List.mem_cons_of_mem _ h)
        · exact .inr h

/-! ## Label-layer commitment invariant -/

theorem committedSum_append (l : List CreditLine) (c : CreditLine) :
    committedSum (l ++ [c]) =
      committedSum l + (c.credit_limit - c.credit_used) := by
  induction l with
  | nil => simp [committedSum]
  | cons x xs ih =>
    rw [List.cons_append]
    simp only [committedSum]
    omega

theorem committedSum_ge (l : List CreditLine) (i : Nat) (c : CreditLine)
    (h : l[i]? = some c) :
    c.credit_limit - c.credit_used ≤ committedSum l := by
  induction l generalizing i with
  | nil => simp at h
  | cons x xs ih =>
    cases i with
    | zero =>
      simp only [List.getElem?_cons_zero, Option.some.injEq] at h
      subst h
      simp [committedSum]
    | succ i =>
      simp only [List.getElem?_cons_succ] at h
      have := ih i h
      simp only [committedSum]
      omega

theorem committedSum_set (l : List CreditLine) (i : Nat) (c c' : CreditLine)
    (h : l[i]? = some c) :
    committedSum (l.set i c') + (c.credit_limit - c.credit_used) =
      committedSum l + (c'.credit_limit - c'.credit_used) := by
  induction l generalizing i with
  | nil => simp at h
  | cons x xs ih =>
    cases i with
    | zero =>
      simp only [List.getElem?_cons_zero, Option.some.injEq] at h
      subst h
      simp only [List.set_cons_zero, committedSum]
      omega
    | succ i =>
      simp only [List.getElem?_cons_succ] at h
      have := ih i h
      simp only [List.set_cons_succ, committedSum]
      omega

theorem draw_credit_inv {label : LabelExternal} {cl : CreditLine}
    {t a amount : Nat} {out : LabelExternal × CreditLine × Nat × Nat}
    (h : draw_credit label cl t a amount = .ok out) :
    0 < amount ∧ cl.is_active = true ∧ cl.credit_used ≤ cl.credit_limit ∧
    amount ≤ cl.credit_limit - cl.credit_used ∧
    amount ≤ t ∧ a + amount < U64LIM ∧
    amount ≤ label.committed_amount ∧
    cl.credit_used + amount < U64LIM ∧
    out = ({ label with committed_amount := label.committed_amount - amount },
           { cl with credit_used := cl.credit_used + amount },
           t - amount, a + amount) := by
  unfold draw_credit at h
  repeat' split at h
  all_goals try exact Except.noConfusion h
  rename_i hpos hact _ avail hsubl hle _ src2 dst2 htr _ used2 hadd _ comm2 hsubc
  obtain ⟨rfl, hlim⟩ := chk_sub_inv hsubl
  obtain ⟨hts, hta, hpair⟩ := spl_transfer_inv htr
  obtain ⟨rfl, husd⟩ := chk_add_inv hadd
  obtain ⟨rfl, hcm⟩ := chk_sub_inv hsubc
  cases hpair
  cases h
  refine ⟨by omega, by simpa using hact, hlim, by omega, hts, hta, hcm, husd, rfl⟩
theorem labelInv_step {s s' : LabelChainState} {ix : LabelIx}
    (hinv : labelInv s) (hstep : labelStep s ix = .ok s') : labelInv s' := by
  unfold labelInv at *
  cases ix with
  | submitIx an cid r d rev =>
    simp only [labelStep] at hstep
    split at hstep; · exact Except.noConfusion hstep
    split at hstep; · exact Except.noConfusion hstep
    cases hstep
    simpa using hinv
  | executeIx i =>
    simp only [labelStep] at hstep
    split at hstep; · exact Except.noConfusion hstep
    next p hp =>
    split at hstep; · exact Except.noConfusion hstep
    split at hstep; · exact Except.noConfusion hstep
    next out hexec =>
    obtain ⟨hpend, hd, hc, hout⟩ := execute_artist_funding_inv hexec
    simp only [Prod.mk.injEq] at hout
    obtain ⟨rfl, rfl, rfl⟩ := hout
    cases hstep
    simp only [committedSum_append]
    simp only [hinv]
    omega
  | drawIx i amount =>
    simp only [labelStep] at hstep
    split at hstep; · exact Except.noConfusion hstep
    next cl hcl =>
    split at hstep; · exact Except.noConfusion hstep
    next out hdraw =>
    obtain ⟨hpos, hact, hlim, hav, ht, ha, hcm, hu, hout⟩ := draw_credit_inv hdraw
    simp only [Prod.mk.injEq] at hout
    obtain ⟨rfl, rfl, rfl, rfl⟩ := hout
    cases hstep
    have hset := committedSum_set s.credit_lines i cl
      { cl with credit_used := cl.credit_used + amount } hcl
    have hge := committedSum_ge s.credit_lines i cl hcl
    simp only at hset ⊢
    omega
  | repayIx i amount =>
    simp only [labelStep] at hstep
    split at hstep; · exact Except.noConfusion hstep
    next cl hcl =>
    split at hstep; · exact Except.noConfusion hstep
    next out hrep =>
    obtain ⟨hpos, hact, hur, hta, htb, hla, hout⟩ := repay_credit_inv hrep
    simp only [Prod.mk.injEq] at hout
    obtain ⟨rfl, rfl, rfl, rfl⟩ := hout
    cases hstep
    by_cases hfull : cl.credit_repaid + actualRepayment cl amount ≥ cl.credit_used
    · simp only [if_pos hfull]
      have hset := committedSum_set s.credit_lines i cl
        { cl with
          credit_repaid := cl.credit_repaid + actualRepayment cl amount,
          is_active := false } hcl
      simp only at hset ⊢
      omega
    · simp only [if_neg hfull]
      have hset := committedSum_set s.credit_lines i cl
        { cl with
          credit_repaid := cl.credit_repaid + actualRepayment cl amount } hcl
      simp only at hset ⊢
      omega
  | settleIx amount =>
    simp only [labelStep] at hstep
    split at hstep; · exact Except.noConfusion hstep
    next out hsettle =>
    obtain ⟨hpos, hact, hta, htb, hout⟩ := settle_with_dao_inv hsettle
    simp only [Prod.mk.injEq] at hout
    obtain ⟨rfl, rfl⟩ := hout
    cases hstep
    exact hinv

theorem labelReachable_inv {s : LabelChainState} (h : labelReachable s) :
    labelInv s := by
  induction h with
  | init t d a ht hd ha => rfl
  | step s ix s' hs hstep ih => exact labelInv_step ih hstep

/-! ## Reachability of the concrete example states -/

theorem exS2_reachable : labelReachable exS2 :=
  .step exS1 (.submitIx "artist" "b" 6000 "" 0) exS2
    (.step exS0 (.submitIx "artist" "a" 6000 "" 0) exS1
      (.init 10000 0 0 (by norm_num [U64LIM]) (by norm_num [U64LIM])
        (by norm_num [U64LIM]))
      rfl)
    rfl

theorem exS4_reachable : labelReachable exS4 :=
  .step exS3 (.executeIx 1) exS4
    (.step exS2 (.executeIx 0) exS3 exS2_reachable rfl)
    rfl

theorem exP2_reachable : presaleReachable exP2 :=
  .step exP1 .closeIx exP2
    (.step exP0 (.buyIx 200) exP1
      (.init "c" 100 none exP0.campaign 250 0 rfl
        (by norm_num [U64LIM]) (by norm_num [U64LIM]))
      rfl)
    rfl

theorem exQ1_reachable : presaleReachable exQ1 :=
  .step exQ0 (.buyIx 250) exQ1
    (.init "q" 100 (some 10) exQ0.campaign 250 0 rfl
      (by norm_num [U64LIM]) (by norm_num [U64LIM]))
    rfl

/-! ## Claims -/

/-- C1.  For a valid proposal submission (string bounds respected, positive
amount, active parent, committed total within the balance), the Label-layer
`submit_artist_proposal` fails with the insufficient-funds error exactly
when the request exceeds the available funds `balance − committed_amount`
(in particular a request within the raw balance but above the available
funds is rejected), and the DAO-layer `propose_label` fails with its
insufficient-funds error exactly when the request exceeds the raw DAO
treasury balance (the DAO layer tracks no committed total: its funds leave
the treasury at execution time, so its available balance is the raw
balance). -/
theorem C1_available_funds_check
    (label : LabelExternal) (t : Nat) (an cid : String) (r : Nat)
    (d : String) (rev : Nat) (dt : Nat) (name : String) (f cb rb : Nat)
    (h1 : an.length ≤ 50) (h2 : cid.length ≤ 50) (h3 : 0 < r)
    (h4 : d.length ≤ 500) (h5 : label.is_active = true)
    (h6 : label.committed_amount ≤ t)
    (g1 : name.length ≤ 50) (g2 : 0 < f) (g3 : cb ≤ 10000)
    (g4 : rb ≤ 10000) :
    (submit_artist_proposal label t an cid r d rev =
        .error .InsufficientLabelFunds ↔ t - label.committed_amount < r) ∧
    (r ≤ t → t - label.committed_amount < r →
      submit_artist_proposal label t an cid r d rev =
        .error .InsufficientLabelFunds) ∧
    (propose_label dt name f cb rb = .error .InsufficientTreasuryFunds ↔
      dt < f) := by
  have hsub :
      submit_artist_proposal label t an cid r d rev =
        if ¬ t - label.committed_amount ≥ r then
          .error .InsufficientLabelFunds
        else .ok
          { artist_name := an, campaign_id := cid, requested_amount := r,
            campaign_description := d, revenue_projection := rev,
            status := .Pending, credit_line := none } := by
    unfold submit_artist_proposal
    rw [if_neg (by omega), if_neg (by omega), if_neg (by omega),
      if_neg (by omega), if_neg (by simp [h5]), chk_sub_eq h6]
  have hprop :
      propose_label dt name f cb rb =
        if ¬ dt ≥ f then .error .InsufficientTreasuryFunds
        else .ok
          { label_name := name, funding_amount := f,
            curator_share_bps := cb, repayment_target_bps := rb,
            status := .Pending, label := none } := by
    unfold propose_label
    rw [if_neg (by omega), if_neg (by omega), if_neg (by omega),
      if_neg (by omega)]
  refine ⟨?_, ?_, ?_⟩
  · rw [hsub]
    by_cases hp : t - label.committed_amount < r
    · rw [if_pos (by omega)]
      simp [hp]
    · rw [if_neg (by omega)]
      simp [hp]
  · intro _ hp
    rw [hsub, if_pos (by omega)]
  · rw [hprop]
    by_cases hp : dt < f
    · rw [if_pos (by omega)]
      simp [hp]
    · rw [if_neg (by omega)]
      simp [hp]

/-- C1 witness: with a 10,000 balance and 6,000 committed, a 5,000 request
is within the raw balance yet rejected at the Label layer; at the DAO
layer a 5,000 request against a 10,000 balance passes the check. -/
theorem C1_available_funds_check_witness :
    (submit_artist_proposal
        { initial_funding := 10000, total_deployed := 6000,
          total_repaid := 0, committed_amount := 6000, is_active := true }
        10000 "artist" "c" 5000 "" 0 =
          .error .InsufficientLabelFunds ↔ 10000 - 6000 < 5000) ∧
    (5000 ≤ 10000 → 10000 - 6000 < 5000 →
      submit_artist_proposal
        { initial_funding := 10000, total_deployed := 6000,
          total_repaid := 0, committed_amount := 6000, is_active := true }
        10000 "artist" "c" 5000 "" 0 = .error .InsufficientLabelFunds) ∧
    (propose_label 10000 "l" 5000 8000 10000 =
        .error .InsufficientTreasuryFunds ↔ 10000 < 5000) :=
  C1_available_funds_check
    { initial_funding := 10000, total_deployed := 6000, total_repaid := 0,
      committed_amount := 6000, is_active := true }
    10000 "artist" "c" 5000 "" 0 10000 "l" 5000 8000 10000
    (by decide) (by decide) (by decide) (by decide) (by decide) (by decide)
    (by decide) (by decide) (by decide) (by decide)

/-- C2 counterexample: submission reserves nothing, so a 10,000 treasury
accepts two pending 6,000 proposals; in the reachable state `exS2` the
Pending+Approved requested total is 12,000, exceeding the raw balance. -/
theorem C2_counterexample :
    labelReachable exS2 ∧
    pendingApprovedSum exS2.proposals = 12000 ∧
    exS2.label_treasury = 10000 ∧
    exS2.label_treasury < pendingApprovedSum exS2.proposals :=
  ⟨exS2_reachable, rfl, rfl, by decide⟩

/-- C2 amended: each individually successful submission respects the
available balance at the time of the call — `submit_artist_proposal`
succeeds only when the request is within `balance − committed_amount`, and
`propose_label` only when it is within the raw DAO balance — but no
aggregate bound over all Pending+Approved proposals follows, because
submission reserves nothing. -/
theorem C2_submit_available_at_call :
    (∀ (label : LabelExternal) (t : Nat) (an cid : String) (r : Nat)
       (d : String) (rev : Nat) (p : ArtistProposal),
      submit_artist_proposal label t an cid r d rev = .ok p →
      label.committed_amount ≤ t ∧ r ≤ t - label.committed_amount ∧
      p.requested_amount = r) ∧
    (∀ (dt : Nat) (name : String) (f cb rb : Nat) (p : LabelProposal),
      propose_label dt name f cb rb = .ok p →
      f ≤ dt ∧ p.funding_amount = f) := by
  constructor
  · intro label t an cid r d rev p h
    obtain ⟨rfl, h3, h6, hav, hact⟩ := submit_artist_proposal_inv h
    exact ⟨h6, hav, rfl⟩
  · intro dt name f cb rb p h
    obtain ⟨g1, g2, g3, g4, g5, rfl⟩ := propose_label_inv h
    exact ⟨g5, rfl⟩

/-- C2 witness: the first 6,000 submission against the fresh 10,000
treasury is within the available balance at its call time. -/
theorem C2_submit_available_at_call_witness :
    (initialLabelState 10000 0 0).label.committed_amount ≤ 10000 ∧
    6000 ≤ 10000 - (initialLabelState 10000 0 0).label.committed_amount ∧
    exProposalA.requested_amount = 6000 :=
  C2_submit_available_at_call.1 (initialLabelState 10000 0 0).label
    10000 "artist" "a" 6000 "" 0 exProposalA rfl

/-- C3 counterexample: in the reachable state `exS4` (two pending 6,000
proposals both executed against a 10,000 treasury) the committed amount,
12,000, exceeds the label treasury balance — `execute_artist_funding`
re-checks nothing against the balance. -/
theorem C3_counterexample :
    labelReachable exS4 ∧
    exS4.label.committed_amount = 12000 ∧ exS4.label_treasury = 10000 ∧
    exS4.label_treasury < exS4.label.committed_amount :=
  ⟨exS4_reachable, rfl, rfl, by decide⟩

/-- C3 amended: at every reachable label state `committed_amount` equals
the aggregate undrawn commitment of the credit lines (so it is a
well-defined non-negative ledger and the subtraction in `draw_credit`
never underflows); it increases exactly at `execute_artist_funding` by the
requested amount of the executed proposal, decreases exactly at `draw_credit`
by the drawn amount, and is untouched by the other instructions.  The
bound `committed_amount ≤ balance` claimed by the spec does not hold (see
the counterexample). -/
theorem C3_committed_ledger :
    (∀ s, labelReachable s →
      s.label.committed_amount = committedSum s.credit_lines) ∧
    (∀ s s' an cid r d rev,
      labelStep s (.submitIx an cid r d rev) = .ok s' →
      s'.label.committed_amount = s.label.committed_amount) ∧
    (∀ s s' i, labelStep s (.executeIx i) = .ok s' →
      ∃ p, s.proposals[i]? = some p ∧
        s'.label.committed_amount =
          s.label.committed_amount + p.requested_amount) ∧
    (∀ s s' i a, labelStep s (.drawIx i a) = .ok s' →
      s'.label.committed_amount + a = s.label.committed_amount ∧
      a ≤ s.label.committed_amount) ∧
    (∀ s s' i a, labelStep s (.repayIx i a) = .ok s' →
      s'.label.committed_amount = s.label.committed_amount) ∧
    (∀ s s' a, labelStep s (.settleIx a) = .ok s' →
      s'.label.committed_amount = s.label.committed_amount) := by
  refine ⟨fun s hs => labelReachable_inv hs, ?_, ?_, ?_, ?_, ?_⟩
  · intro s s' an cid r d rev hstep
    simp only [labelStep] at hstep
    split at hstep; · exact Except.noConfusion hstep
    split at hstep; · exact Except.noConfusion hstep
    cases hstep
    rfl
  · intro s s' i hstep
    simp only [labelStep] at hstep
    split at hstep; · exact Except.noConfusion hstep
    next p hp =>
    split at hstep; · exact Except.noConfusion hstep
    split at hstep; · exact Except.noConfusion hstep
    next out hexec =>
    obtain ⟨hpend, hd, hc, hout⟩ := execute_artist_funding_inv hexec
    simp only [Prod.mk.injEq] at hout
    obtain ⟨rfl, rfl, rfl⟩ := hout
    cases hstep
    exact ⟨p, hp, rfl⟩
  · intro s s' i a hstep
    simp only [labelStep] at hstep
    split at hstep; · exact Except.noConfusion hstep
    next cl hcl =>
    split at hstep; · exact Except.noConfusion hstep
    next out hdraw =>
    obtain ⟨hpos, hact, hlim, hav, ht, ha, hcm, hu, hout⟩ :=
      draw_credit_inv hdraw
    simp only [Prod.mk.injEq] at hout
    obtain ⟨rfl, rfl, rfl, rfl⟩ := hout
    cases hstep
    exact ⟨by simp; omega, hcm⟩
  · intro s s' i a hstep
    simp only [labelStep] at hstep
    split at hstep; · exact Except.noConfusion hstep
    next cl hcl =>
    split at hstep; · exact Except.noConfusion hstep
    next out hrep =>
    obtain ⟨hpos, hact, hur, hta, htb, hla, hout⟩ := repay_credit_inv hrep
    simp only [Prod.mk.injEq] at hout
    obtain ⟨rfl, rfl, rfl, rfl⟩ := hout
    cases hstep
    rfl
  · intro s s' a hstep
    simp only [labelStep] at hstep
    split at hstep; · exact Except.noConfusion hstep
    next out hsettle =>
    obtain ⟨hpos, hact, hta, htb, hout⟩ := settle_with_dao_inv hsettle
    simp only [Prod.mk.injEq] at hout
    obtain ⟨rfl, rfl⟩ := hout
    cases hstep
    rfl

/-- C3 witness: the ledger equation evaluated at the reachable state
`exS4`: committed 12,000 equals the credit lines' undrawn 6,000 + 6,000. -/
theorem C3_committed_ledger_witness :
    exS4.label.committed_amount = committedSum exS4.credit_lines :=
  C3_committed_ledger.1 exS4 exS4_reachable

theorem lget_lt {α : Type} (l : List α) (i : Nat) (x : α)
    (h : l[i]? = some x) : i < l.length := by
  induction l generalizing i with
  | nil => simp at h
  | cons y xs ih =>
    cases i with
    | zero => simp
    | succ i =>
      simp only [List.getElem?_cons_succ] at h
      simpa using ih i h

/-- C4 counterexample: the DAO-layer `execute_label_funding` performs no
status check at all, so executing a `Cancelled` proposal succeeds (with a
full fund transfer and token distribution) instead of failing. -/
theorem C4_counterexample :
    exLabelProposalCancelled.status = .Cancelled ∧
    execute_label_funding exDao exLabelProposalCancelled 10000 1000 =
      .ok ({ exDao with total_labels_funded := 1,
                        total_deployed_capital := 6000 },
        { exLabelProposalCancelled with
            status := .Executed, label := some () },
        { name := "l", initial_funding := 6000, curator_share_bps := 8000,
          total_deployed := 0, total_repaid := 0, is_active := true,
          treasury := 6000,
          token_mint := { supply := 600, mint_authority := none },
          curator_tokens := 500, dao_tokens := 100 },
        4000) :=
  ⟨rfl, rfl⟩

/-- C4 amended: at the Label layer `execute_artist_funding` fails with
`ProposalNotPending` for every non-`Pending` proposal and on success marks
the proposal `Approved` (the status enum of that layer has no `Executed`
state), so an immediate re-execution of the same proposal fails.  At the
DAO layer the handler body checks no status; on success the proposal
becomes `Executed` and re-execution of the same proposal fails only
because the label account it would re-create already exists. -/
theorem C4_execute_once :
    (∀ (label : LabelExternal) (p : ArtistProposal),
      p.status ≠ .Pending →
      execute_artist_funding label p = .error .ProposalNotPending) ∧
    (∀ (label : LabelExternal) (p : ArtistProposal)
       (out : LabelExternal × ArtistProposal × CreditLine),
      execute_artist_funding label p = .ok out →
      out.2.1.status = .Approved) ∧
    (∀ s s' i, labelStep s (.executeIx i) = .ok s' →
      ∃ e, labelStep s' (.executeIx i) = .error e) ∧
    (∀ s s' i ts, daoStep s (.executeIx i ts) = .ok s' →
      (∃ p', s'.proposals[i]? = some p' ∧ p'.status = .Executed) ∧
      ∀ ts2, ∃ e, daoStep s' (.executeIx i ts2) = .error e) := by
  refine ⟨?_, ?_, ?_, ?_⟩
  · intro label p hne
    unfold execute_artist_funding
    rw [if_pos (by simpa using hne)]
  · intro label p out h
    obtain ⟨hpend, hd, hc, hout⟩ := execute_artist_funding_inv h
    rw [hout]
  · intro s s' i hstep
    simp only [labelStep] at hstep
    split at hstep; · exact Except.noConfusion hstep
    next p hp =>
    split at hstep; · exact Except.noConfusion hstep
    split at hstep; · exact Except.noConfusion hstep
    next out hexec =>
    obtain ⟨hpend, hd, hc, hout⟩ := execute_artist_funding_inv hexec
    simp only [Prod.mk.injEq] at hout
    obtain ⟨rfl, rfl, rfl⟩ := hout
    cases hstep
    have hlen : i < s.proposals.length := lget_lt _ _ _ hp
    refine ⟨.AccountAlreadyInUse, ?_⟩
    simp only [labelStep, lget_set_self s.proposals i _ hlen]
    rw [if_pos]
    simp [List.any_append]
  · intro s s' i ts hstep
    simp only [daoStep] at hstep
    split at hstep; · exact Except.noConfusion hstep
    next p hp =>
    split at hstep; · exact Except.noConfusion hstep
    split at hstep; · exact Except.noConfusion hstep
    next out hexec =>
    obtain ⟨hfund, hfu, h50, h10, hct, hdep, hout⟩ :=
      execute_label_funding_inv hexec
    simp only [Prod.mk.injEq] at hout
    obtain ⟨rfl, rfl, rfl, rfl⟩ := hout
    cases hstep
    have hlen : i < s.proposals.length := lget_lt _ _ _ hp
    refine ⟨⟨_, lget_set_self s.proposals i _ hlen, rfl⟩, ?_⟩
    intro ts2
    refine ⟨.AccountAlreadyInUse, ?_⟩
    simp only [daoStep, lget_set_self s.proposals i _ hlen]
    rw [if_pos]
    simp [List.any_append]

/-- C4 witness: executing a `Rejected` artist proposal fails with
`ProposalNotPending`. -/
theorem C4_execute_once_witness :
    execute_artist_funding (initialLabelState 10000 0 0).label
      exArtistProposalRejected = .error .ProposalNotPending :=
  C4_execute_once.1 (initialLabelState 10000 0 0).label
    exArtistProposalRejected (by decide)

/-- A `buy_presale` call on an inactive campaign always fails with
`CampaignInactive`. -/
theorem buy_presale_inactive {c : Campaign} {tr bu bt : Nat} {m : SplMint}
    {usdc : Nat} (h : c.is_active = false) :
    buy_presale c tr bu bt m usdc = .error .CampaignInactive := by
  unfold buy_presale
  rw [if_pos (by simp [h])]

theorem presaleStep_inactive_preserved {s s' : PresaleState}
    {ix : PresaleIx} (hstep : presaleStep s ix = .ok s')
    (h : s.campaign.is_active = false) : s'.campaign.is_active = false := by
  cases ix with
  | buyIx amt =>
    simp only [presaleStep, buy_presale_inactive h] at hstep
    exact Except.noConfusion hstep
  | withdrawIx amt =>
    simp only [presaleStep] at hstep
    split at hstep; · exact Except.noConfusion hstep
    cases hstep
    exact h
  | closeIx =>
    simp only [presaleStep] at hstep
    cases hstep
    rfl

/-- C5 counterexample: in the reachable state `exP2` the campaign has been
closed (`is_active = false`, 200 USDC raised in its treasury), and a
`withdraw_funds` call for 150 still succeeds — the withdraw handler never
consults `is_active`. -/
theorem C5_counterexample :
    presaleReachable exP2 ∧ exP2.campaign.is_active = false ∧
    presaleStep exP2 (.withdrawIx 150) =
      .ok { exP2 with treasury := 50, authority_usdc := 150 } :=
  ⟨exP2_reachable, rfl, rfl⟩

/-- C5 amended: once a campaign is inactive every later `buy_presale`
fails with `CampaignInactive` and no state changes, and no instruction
ever reactivates it; `withdraw_funds`, however, is not gated on
`is_active` and still succeeds after `close_campaign` (see the
counterexample). -/
theorem C5_closed_campaign :
    (∀ s amt, s.campaign.is_active = false →
      presaleStep s (.buyIx amt) = .error .CampaignInactive) ∧
    (∀ s s', presaleSteps s s' → s.campaign.is_active = false →
      s'.campaign.is_active = false) := by
  constructor
  · intro s amt h
    simp only [presaleStep, buy_presale_inactive h]
  · intro s s' hsteps
    induction hsteps with
    | refl => exact fun h => h
    | tail s1 s2 ix hsteps hstep ih =>
      exact fun h => presaleStep_inactive_preserved hstep (ih h)

/-- C5 witness: a buy of 100 on the closed campaign state `exP2` fails
with `CampaignInactive`. -/
theorem C5_closed_campaign_witness :
    presaleStep exP2 (.buyIx 100) = .error .CampaignInactive :=
  C5_closed_campaign.1 exP2 100 rfl

/-- C6.  On an active campaign with positive price: a payment that buys
zero whole tokens fails with `InvalidAmount`; a successful purchase debits
the buyer exactly `floor(payment / price) * price` (never the full
payment) and mints the buyer exactly `floor(payment / price)` campaign
tokens. -/
theorem C6_buy_exactness
    (c : Campaign) (tr bu bt : Nat) (m : SplMint) (usdc : Nat)
    (hact : c.is_active = true) (hp : 0 < c.price_per_token_usdc) :
    (usdc / c.price_per_token_usdc = 0 →
      buy_presale c tr bu bt m usdc = .error .InvalidAmount) ∧
    (∀ c2 t2 bu2 bt2 m2,
      buy_presale c tr bu bt m usdc = .ok (c2, t2, bu2, bt2, m2) →
      bu2 = bu - usdc / c.price_per_token_usdc * c.price_per_token_usdc ∧
      usdc / c.price_per_token_usdc * c.price_per_token_usdc ≤ bu ∧
      t2 = tr + usdc / c.price_per_token_usdc * c.price_per_token_usdc ∧
      bt2 = bt + usdc / c.price_per_token_usdc ∧
      m2.supply = m.supply + usdc / c.price_per_token_usdc) := by
  constructor
  · intro h0
    unfold buy_presale
    rw [if_neg (by simp [hact])]
    by_cases hz : usdc = 0
    · rw [if_pos (by omega)]
    · rw [if_neg (by omega)]
      simp only [chk_div_eq (by omega : c.price_per_token_usdc ≠ 0), h0]
      simp
  · intro c2 t2 bu2 bt2 m2 h
    obtain ⟨_, _, _, _, _, hrest⟩ := buy_presale_inv h
    obtain ⟨hle, hbu, htr, hauth, hsup, hbt, hsold, hraised, hout⟩ :=
      buyPresaleRest_inv hrest
    simp only [Prod.mk.injEq] at hout
    obtain ⟨rfl, rfl, rfl, rfl, rfl⟩ := hout
    exact ⟨rfl, hbu, rfl, rfl, rfl⟩

/-- C6 witness: price 100, payment 250 — the buyer is debited exactly 200
(250 − 50 surplus) and receives exactly 2 tokens. -/
theorem C6_buy_exactness_witness :
    (250 / exP0.campaign.price_per_token_usdc = 0 →
      buy_presale exP0.campaign 0 250 0
        { supply := 0, mint_authority := some () } 250 =
        .error .InvalidAmount) ∧
    (∀ c2 t2 bu2 bt2 m2,
      buy_presale exP0.campaign 0 250 0
        { supply := 0, mint_authority := some () } 250 =
        .ok (c2, t2, bu2, bt2, m2) →
      bu2 = 250 - 250 / exP0.campaign.price_per_token_usdc *
              exP0.campaign.price_per_token_usdc ∧
      250 / exP0.campaign.price_per_token_usdc *
          exP0.campaign.price_per_token_usdc ≤ 250 ∧
      t2 = 0 + 250 / exP0.campaign.price_per_token_usdc *
              exP0.campaign.price_per_token_usdc ∧
      bt2 = 0 + 250 / exP0.campaign.price_per_token_usdc ∧
      m2.supply = 0 + 250 / exP0.campaign.price_per_token_usdc) :=
  C6_buy_exactness exP0.campaign 0 250 0
    { supply := 0, mint_authority := some () } 250 rfl (by decide)

/-- C7.  A positive repayment on an active credit line is capped at the
outstanding balance: exactly `min(amount, used − repaid)` moves from the
artist to the label treasury, `credit_repaid` and the label `total_repaid`
grow by that amount, and the line closes exactly when `credit_repaid`
reaches `credit_used`. -/
theorem C7_repay_caps
    (label : LabelExternal) (cl : CreditLine) (artist treasury amount : Nat)
    (hact : cl.is_active = true) (hle : cl.credit_repaid ≤ cl.credit_used)
    (hused : cl.credit_used < U64LIM) (hpos : 0 < amount)
    (hart : actualRepayment cl amount ≤ artist)
    (htre : treasury + actualRepayment cl amount < U64LIM)
    (htot : label.total_repaid + actualRepayment cl amount < U64LIM) :
    ∃ label2 cl2 artist2 treasury2,
      repay_credit label cl artist treasury amount =
        .ok (label2, cl2, artist2, treasury2) ∧
      actualRepayment cl amount =
        min amount (cl.credit_used - cl.credit_repaid) ∧
      artist2 = artist - actualRepayment cl amount ∧
      treasury2 = treasury + actualRepayment cl amount ∧
      cl2.credit_repaid = cl.credit_repaid + actualRepayment cl amount ∧
      cl2.credit_used = cl.credit_used ∧
      label2.total_repaid = label.total_repaid + actualRepayment cl amount ∧
      (cl2.is_active = false ↔
        cl.credit_repaid + actualRepayment cl amount = cl.credit_used) := by
  have h := repay_credit_ok label cl artist treasury amount hact hle hused
    hpos hart htre htot
  have hmin : actualRepayment cl amount ≤ cl.credit_used - cl.credit_repaid :=
    Nat.min_le_right _ _
  by_cases hfull : cl.credit_repaid + actualRepayment cl amount ≥ cl.credit_used
  · rw [if_pos hfull] at h
    refine ⟨_, _, _, _, h, rfl, rfl, rfl, rfl, rfl, rfl, ?_⟩
    simp only [true_iff]
    omega
  · rw [if_neg hfull] at h
    refine ⟨_, _, _, _, h, rfl, rfl, rfl, rfl, rfl, rfl, ?_⟩
    simp only [hact]
    constructor
    · intro hcontra
      exact absurd hcontra (by simp)
    · intro heq
      omega

/-- C7 witness: limit 1,000, used 700, repaid 0 — `repay(800)` transfers
exactly 700 and closes the line. -/
theorem C7_repay_caps_witness :
    ∃ label2 cl2 artist2 treasury2,
      repay_credit
        { initial_funding := 2000, total_deployed := 1000,
          total_repaid := 0, committed_amount := 300, is_active := true }
        { campaign_id := "k", credit_limit := 1000, credit_used := 700,
          credit_repaid := 0, is_active := true }
        800 1300 800 = .ok (label2, cl2, artist2, treasury2) ∧
      actualRepayment
          { campaign_id := "k", credit_limit := 1000, credit_used := 700,
            credit_repaid := 0, is_active := true } 800 = min 800 (700 - 0) ∧
      artist2 = 800 - actualRepayment
          { campaign_id := "k", credit_limit := 1000, credit_used := 700,
            credit_repaid := 0, is_active := true } 800 ∧
      treasury2 = 1300 + actualRepayment
          { campaign_id := "k", credit_limit := 1000, credit_used := 700,
            credit_repaid := 0, is_active := true } 800 ∧
      cl2.credit_repaid = 0 + actualRepayment
          { campaign_id := "k", credit_limit := 1000, credit_used := 700,
            credit_repaid := 0, is_active := true } 800 ∧
      cl2.credit_used = 700 ∧
      label2.total_repaid = 0 + actualRepayment
          { campaign_id := "k", credit_limit := 1000, credit_used := 700,
            credit_repaid := 0, is_active := true } 800 ∧
      (cl2.is_active = false ↔
        0 + actualRepayment
          { campaign_id := "k", credit_limit := 1000, credit_used := 700,
            credit_repaid := 0, is_active := true } 800 = 700) :=
  C7_repay_caps
    { initial_funding := 2000, total_deployed := 1000, total_repaid := 0,
      committed_amount := 300, is_active := true }
    { campaign_id := "k", credit_limit := 1000, credit_used := 700,
      credit_repaid := 0, is_active := true }
    800 1300 800 (by decide) (by decide) (by decide) (by decide)
    (by decide) (by decide) (by decide)

/-- A successful label instruction never modifies an inactive credit
line. -/
theorem labelStep_inactive_line_preserved {s s' : LabelChainState}
    {ix : LabelIx} (hstep : labelStep s ix = .ok s') {i : Nat}
    {cl : CreditLine} (hcl : s.credit_lines[i]? = some cl)
    (hin : cl.is_active = false) : s'.credit_lines[i]? = some cl := by
  cases ix with
  | submitIx an cid r d rev =>
    simp only [labelStep] at hstep
    split at hstep; · exact Except.noConfusion hstep
    split at hstep; · exact Except.noConfusion hstep
    cases hstep
    exact hcl
  | executeIx j =>
    simp only [labelStep] at hstep
    split at hstep; · exact Except.noConfusion hstep
    split at hstep; · exact Except.noConfusion hstep
    split at hstep; · exact Except.noConfusion hstep
    next out hexec =>
    obtain ⟨hpend, hd, hc, hout⟩ := execute_artist_funding_inv hexec
    simp only [Prod.mk.injEq] at hout
    obtain ⟨rfl, rfl, rfl⟩ := hout
    cases hstep
    simpa [lget_append_left s.credit_lines _ i (lget_lt _ _ _ hcl)] using hcl
  | drawIx j a =>
    simp only [labelStep] at hstep
    split at hstep; · exact Except.noConfusion hstep
    next cl2 hcl2 =>
    split at hstep; · exact Except.noConfusion hstep
    next out hdraw =>
    obtain ⟨hpos, hact2, _, _, _, _, _, _, hout⟩ := draw_credit_inv hdraw
    simp only [Prod.mk.injEq] at hout
    obtain ⟨rfl, rfl, rfl, rfl⟩ := hout
    cases hstep
    by_cases hij : i = j
    · subst hij
      rw [hcl] at hcl2
      cases hcl2
      rw [hact2] at hin
      exact Bool.noConfusion hin
    · simpa [lget_set_ne s.credit_lines i j _ hij] using hcl
  | repayIx j a =>
    simp only [labelStep] at hstep
    split at hstep; · exact Except.noConfusion hstep
    next cl2 hcl2 =>
    split at hstep; · exact Except.noConfusion hstep
    next out hrep =>
    obtain ⟨hpos, hact2, _, _, _, _, hout⟩ := repay_credit_inv hrep
    simp only [Prod.mk.injEq] at hout
    obtain ⟨rfl, rfl, rfl, rfl⟩ := hout
    cases hstep
    by_cases hij : i = j
    · subst hij
      rw [hcl] at hcl2
      cases hcl2
      rw [hact2] at hin
      exact Bool.noConfusion hin
    · simpa [lget_set_ne s.credit_lines i j _ hij] using hcl
  | settleIx a =>
    simp only [labelStep] at hstep
    split at hstep; · exact Except.noConfusion hstep
    cases hstep
    exact hcl

/-- C10.  A positive repayment on an active line with nothing outstanding
(`credit_used = credit_repaid`) succeeds, transfers 0, leaves every
counter unchanged, and permanently deactivates the line; afterwards no
draw on that line can ever succeed. -/
theorem C10_zero_outstanding_repay :
    (∀ (label : LabelExternal) (cl : CreditLine)
       (artist treasury amount : Nat),
      cl.is_active = true → cl.credit_used = cl.credit_repaid →
      0 < amount → cl.credit_used < U64LIM → treasury < U64LIM →
      label.total_repaid < U64LIM →
      repay_credit label cl artist treasury amount =
        .ok (label, { cl with is_active := false }, artist, treasury)) ∧
    (∀ s s' i cl, labelSteps s s' → s.credit_lines[i]? = some cl →
      cl.is_active = false →
      s'.credit_lines[i]? = some cl ∧
      ∀ a, ∃ e, labelStep s' (.drawIx i a) = .error e) := by
  constructor
  · intro label cl artist treasury amount hact heq hpos hused htre htot
    have hzero : actualRepayment cl amount = 0 := by
      unfold actualRepayment
      omega
    have h := repay_credit_ok label cl artist treasury amount hact
      (by omega) hused hpos (by omega)
      (by omega) (by omega)
    rw [hzero] at h
    rw [if_pos (by omega)] at h
    exact h
  · intro s s' i cl hsteps hcl hin
    have hpres : s'.credit_lines[i]? = some cl := by
      induction hsteps with
      | refl => exact hcl
      | tail s1 s2 ix hsteps hstep ih =>
        exact labelStep_inactive_line_preserved hstep ih hin
    refine ⟨hpres, fun a =>
      ⟨if a = 0 then .InvalidAmount else .CreditLineInactive, ?_⟩⟩
    simp only [labelStep, hpres, draw_credit_inactive hin]

/-- C10 witness: a repayment of 5 on a freshly created line (nothing
drawn) transfers 0 and closes the line. -/
theorem C10_zero_outstanding_repay_witness :
    repay_credit
      { initial_funding := 10000, total_deployed := 6000, total_repaid := 0,
        committed_amount := 6000, is_active := true }
      { campaign_id := "a", credit_limit := 6000, credit_used := 0,
        credit_repaid := 0, is_active := true } 0 10000 5 =
      .ok ({ initial_funding := 10000, total_deployed := 6000,
             total_repaid := 0, committed_amount := 6000, is_active := true },
           { campaign_id := "a", credit_limit := 6000, credit_used := 0,
             credit_repaid := 0, is_active := false }, 0, 10000) :=
  C10_zero_outstanding_repay.1
    { initial_funding := 10000, total_deployed := 6000, total_repaid := 0,
      committed_amount := 6000, is_active := true }
    { campaign_id := "a", credit_limit := 6000, credit_used := 0,
      credit_repaid := 0, is_active := true } 0 10000 5
    (by decide) (by decide) (by decide) (by decide) (by decide) (by decide)

/-- One presale step preserves the supply-cap bound and the exactness
equation `usdc_raised = tokens_sold * price`. -/
theorem presaleStep_inv {s s' : PresaleState} {ix : PresaleIx}
    (hstep : presaleStep s ix = .ok s')
    (ih : (∀ cap, s.campaign.total_supply = some cap →
        s.campaign.tokens_sold ≤ cap) ∧
      s.campaign.usdc_raised =
        s.campaign.tokens_sold * s.campaign.price_per_token_usdc) :
    (∀ cap, s'.campaign.total_supply = some cap →
      s'.campaign.tokens_sold ≤ cap) ∧
    s'.campaign.usdc_raised =
      s'.campaign.tokens_sold * s'.campaign.price_per_token_usdc := by
  cases ix with
  | buyIx usdc =>
    simp only [presaleStep] at hstep
    split at hstep; · exact Except.noConfusion hstep
    next c2 t2 bu2 bt2 m2 hbuy =>
    obtain ⟨hact, hpos, hpne, htpos, hcap, hrest⟩ := buy_presale_inv hbuy
    obtain ⟨hle, hbu, htr, hauth, hsup, hbt, hsold, hraised, hout⟩ :=
      buyPresaleRest_inv hrest
    simp only [Prod.mk.injEq] at hout
    obtain ⟨rfl, rfl, rfl, rfl, rfl⟩ := hout
    cases hstep
    constructor
    · intro cap hc
      simp only at hc ⊢
      exact hcap cap hc
    · simp only
      rw [Nat.add_mul, ← ih.2]
  | withdrawIx amt =>
    simp only [presaleStep] at hstep
    split at hstep; · exact Except.noConfusion hstep
    cases hstep
    exact ih
  | closeIx =>
    simp only [presaleStep] at hstep
    cases hstep
    exact ih

/-- C9.  At every reachable presale state, a set supply cap bounds
`tokens_sold`, and `usdc_raised` equals exactly
`tokens_sold * price_per_token_usdc` — no fractional residue is ever
accumulated. -/
theorem C9_campaign_invariants :
    ∀ s, presaleReachable s →
      (∀ cap, s.campaign.total_supply = some cap →
        s.campaign.tokens_sold ≤ cap) ∧
      s.campaign.usdc_raised =
        s.campaign.tokens_sold * s.campaign.price_per_token_usdc := by
  intro s h
  induction h with
  | init cid price cap c bu au hc hbu hau =>
    obtain ⟨h1, h2, rfl⟩ := init_campaign_inv hc
    exact ⟨fun cap2 hcap => by simp, by simp⟩
  | step s ix s' hs hstep ih => exact presaleStep_inv hstep ih

/-- C9 witness: the capped reachable state `exQ1` (cap 10, one purchase)
has 2 ≤ 10 tokens sold and 200 = 2 · 100 raised. -/
theorem C9_campaign_invariants_witness :
    (∀ cap, exQ1.campaign.total_supply = some cap →
      exQ1.campaign.tokens_sold ≤ cap) ∧
    exQ1.campaign.usdc_raised =
      exQ1.campaign.tokens_sold * exQ1.campaign.price_per_token_usdc :=
  C9_campaign_invariants exQ1 exQ1_reachable

/-- Every label record in a reachable DAO state has its mint authority
already removed: `execute_label_funding` revokes it in the same atomic
instruction that creates the label. -/
theorem daoReachable_mint_authority_none {s : DaoChainState}
    (h : daoReachable s) :
    ∀ L ∈ s.labels, L.token_mint.mint_authority = none := by
  induction h with
  | init fee t m dao hdao ht hm => simp
  | step s ix s' hs hstep ih =>
    cases ix with
    | proposeIx name f cb rb =>
      simp only [daoStep] at hstep
      split at hstep; · exact Except.noConfusion hstep
      split at hstep; · exact Except.noConfusion hstep
      cases hstep
      exact ih
    | executeIx i ts =>
      simp only [daoStep] at hstep
      split at hstep; · exact Except.noConfusion hstep
      next p hp =>
      split at hstep; · exact Except.noConfusion hstep
      split at hstep; · exact Except.noConfusion hstep
      next out hexec =>
      obtain ⟨hfund, hfu, h50, h10, hct, hdep, hout⟩ :=
        execute_label_funding_inv hexec
      simp only [Prod.mk.injEq] at hout
      obtain ⟨rfl, rfl, rfl, rfl⟩ := hout
      cases hstep
      intro L hL
      simp only at hL
      rcases List.mem_append.mp hL with hL | hL
      · exact ih L hL
      · rcases List.mem_singleton.mp hL with rfl
        rfl
    | recordRepaymentIx j amt =>
      simp only [daoStep] at hstep
      split at hstep; · exact Except.noConfusion hstep
      next lbl hlbl =>
      split at hstep; · exact Except.noConfusion hstep
      next out hrec =>
      obtain ⟨hpos, hact, hta, htb, hl, hr, hout⟩ :=
        record_label_repayment_inv hrec
      simp only [Prod.mk.injEq] at hout
      obtain ⟨rfl, rfl, rfl⟩ := hout
      cases hstep
      intro L hL
      simp only at hL
      rcases lmem_set _ _ _ _ hL with hL | rfl
      · exact ih L hL
      · exact ih lbl (lget_mem _ _ _ hlbl)
    | payFeeIx amt =>
      simp only [daoStep] at hstep
      split at hstep; · exact Except.noConfusion hstep
      cases hstep
      exact ih

/-- C8.  On DAO-proposal execution exactly `⌊supply·50/100⌋` label tokens
go to the curator and exactly `⌊supply·10/100⌋` to the DAO, after which
the mint authority is removed; in every reachable DAO state every label
token mint has no mint authority, and no instruction of the program ever
replaces the mint of an existing label (so its supply is fixed forever).  The
label-subdao program contains no mint operation at all. -/
theorem C8_fixed_supply_mint :
    (∀ (dao : SuperfanDAO) (p : LabelProposal) (dt supply : Nat)
       (out : SuperfanDAO × LabelProposal × LabelRec × Nat),
      execute_label_funding dao p dt supply = .ok out →
      out.2.2.1.curator_tokens = supply * 50 / 100 ∧
      out.2.2.1.dao_tokens = supply * 10 / 100 ∧
      out.2.2.1.token_mint =
        { supply := supply * 50 / 100 + supply * 10 / 100,
          mint_authority := none }) ∧
    (∀ s, daoReachable s → ∀ L ∈ s.labels,
      L.token_mint.mint_authority = none) ∧
    (∀ (s : DaoChainState) (ix : DaoIx) (s' : DaoChainState),
      daoStep s ix = .ok s' → ∀ (i : Nat) (L : LabelRec),
      s.labels[i]? = some L →
      ∃ L', s'.labels[i]? = some L' ∧ L'.token_mint = L.token_mint) := by
  refine ⟨?_, fun s hs => daoReachable_mint_authority_none hs, ?_⟩
  · intro dao p dt supply out h
    obtain ⟨hfund, hfu, h50, h10, hct, hdep, hout⟩ :=
      execute_label_funding_inv h
    rw [hout]
    exact ⟨rfl, rfl, rfl⟩
  · intro s ix s' hstep i L hL
    cases ix with
    | proposeIx name f cb rb =>
      simp only [daoStep] at hstep
      split at hstep; · exact Except.noConfusion hstep
      split at hstep; · exact Except.noConfusion hstep
      cases hstep
      exact ⟨L, hL, rfl⟩
    | executeIx j ts =>
      simp only [daoStep] at hstep
      split at hstep; · exact Except.noConfusion hstep
      next p hp =>
      split at hstep; · exact Except.noConfusion hstep
      split at hstep; · exact Except.noConfusion hstep
      next out hexec =>
      obtain ⟨hfund, hfu, h50, h10, hct, hdep, hout⟩ :=
        execute_label_funding_inv hexec
      simp only [Prod.mk.injEq] at hout
      obtain ⟨rfl, rfl, rfl, rfl⟩ := hout
      cases hstep
      exact ⟨L, by
        simpa [lget_append_left s.labels _ i (lget_lt _ _ _ hL)] using hL,
        rfl⟩
    | recordRepaymentIx j amt =>
      simp only [daoStep] at hstep
      split at hstep; · exact Except.noConfusion hstep
      next lbl hlbl =>
      split at hstep; · exact Except.noConfusion hstep
      next out hrec =>
      obtain ⟨hpos, hact, hta, htb, hl, hr, hout⟩ :=
        record_label_repayment_inv hrec
      simp only [Prod.mk.injEq] at hout
      obtain ⟨rfl, rfl, rfl⟩ := hout
      cases hstep
      by_cases hij : i = j
      · subst hij
        rw [hL] at hlbl
        cases hlbl
        exact ⟨_, lget_set_self s.labels i _ (lget_lt _ _ _ hL), rfl⟩
      · exact ⟨L, by
          simpa [lget_set_ne s.labels i j _ hij] using hL, rfl⟩
    | payFeeIx amt =>
      simp only [daoStep] at hstep
      split at hstep; · exact Except.noConfusion hstep
      cases hstep
      exact ⟨L, hL, rfl⟩

/-- C8 witness: executing a pending 6,000 proposal with token supply
1,000 mints 500 to the curator and 100 to the DAO and leaves the mint
with no authority. -/
theorem C8_fixed_supply_mint_witness :
    ((({ exDao with total_labels_funded := 1, total_deployed_capital := 6000 },
       { exLabelProposal with status := .Executed, label := some () },
       { name := "l", initial_funding := 6000, curator_share_bps := 8000,
         total_deployed := 0, total_repaid := 0, is_active := true,
         treasury := 6000,
         token_mint := { supply := 600, mint_authority := none },
         curator_tokens := 500, dao_tokens := 100 },
       4000) : SuperfanDAO × LabelProposal × LabelRec × Nat)).2.2.1.curator_tokens
        = 1000 * 50 / 100 ∧
    ((({ exDao with total_labels_funded := 1, total_deployed_capital := 6000 },
       { exLabelProposal with status := .Executed, label := some () },
       { name := "l", initial_funding := 6000, curator_share_bps := 8000,
         total_deployed := 0, total_repaid := 0, is_active := true,
         treasury := 6000,
         token_mint := { supply := 600, mint_authority := none },
         curator_tokens := 500, dao_tokens := 100 },
       4000) : SuperfanDAO × LabelProposal × LabelRec × Nat)).2.2.1.dao_tokens
        = 1000 * 10 / 100 ∧
    ((({ exDao with total_labels_funded := 1, total_deployed_capital := 6000 },
       { exLabelProposal with status := .Executed, label := some () },
       { name := "l", initial_funding := 6000, curator_share_bps := 8000,
         total_deployed := 0, total_repaid := 0, is_active := true,
         treasury := 6000,
         token_mint := { supply := 600, mint_authority := none },
         curator_tokens := 500, dao_tokens := 100 },
       4000) : SuperfanDAO × LabelProposal × LabelRec × Nat)).2.2.1.token_mint
        = { supply := 1000 * 50 / 100 + 1000 * 10 / 100,
            mint_authority := none } :=
  C8_fixed_supply_mint.1 exDao exLabelProposal 10000 1000 _ rfl
